import Mathlib

/-!
Verification of the raycasting engine and maze game of this repository.

The TypeScript sources are shallowly embedded over exact rationals:
JavaScript numbers become `ℚ` (with `⌊·⌋` for `Math.floor`), the
`Infinity` produced by `Math.abs(1 / 0)` is modelled by an explicit
two-constructor extended-rational type `QInf` whose order and addition
match the IEEE rules for `Infinity` on the values the engine actually
produces, and JavaScript's `Math.random()` is modelled as an explicit
stream `ℕ → ℚ` of draws together with a cursor that each call advances.
-/

namespace Lunarc

/-- Extended rationals: the values `sideDistX`/`sideDistY`/`deltaDistX`/
`deltaDistY` take in the DDA loop.  `inf` models the JavaScript
`Infinity` arising from `Math.abs(1 / rayDir)` when `rayDir = 0`. -/
inductive QInf where
  | fin : ℚ → QInf
  | inf : QInf
deriving DecidableEq

/-- `<` on extended rationals; matches JavaScript `<` on
finite numbers and `Infinity` (`Infinity < Infinity` is `false`). -/
def QInf.lt : QInf → QInf → Bool
  | .fin a, .fin b => a < b
  | .fin _, .inf => true
  | _, _ => false

/-- Addition; matches JavaScript `+` on finite numbers and `Infinity`
(`x + Infinity = Infinity`). -/
def QInf.add : QInf → QInf → QInf
  | .fin a, .fin b => .fin (a + b)
  | _, _ => .inf

/-- `a * d` for finite `a`: models the JavaScript products
`(player.x - mapX) * deltaDistX` and `(mapX + 1.0 - player.x) * deltaDistX`.
In the only call sites with `d = inf` (which require `rayDir = 0`, hence the
`step = 1` branch) the multiplier `mapX + 1 - player.x` is strictly positive,
where JavaScript gives `positive * Infinity = Infinity`. -/
def QInf.scale (a : ℚ) : QInf → QInf
  | .fin d => .fin (a * d)
  | .inf => .inf

/-- The tile map of the engine: `cell row col` is `worldMap[row][col]`
(`0` = empty, positive = wall/texture code), `w`/`h` are
`mapWidth`/`mapHeight`. -/
structure Grid where
  w : ℕ
  h : ℕ
  cell : ℤ → ℤ → ℕ

/-- In-bounds test `mapX >= 0 && mapX < mapWidth && mapY >= 0 && mapY < mapHeight`. -/
def Grid.inBounds (g : Grid) (mapX mapY : ℤ) : Prop :=
  0 ≤ mapX ∧ mapX < (g.w : ℤ) ∧ 0 ≤ mapY ∧ mapY < (g.h : ℤ)

instance (g : Grid) (mapX mapY : ℤ) : Decidable (g.inBounds mapX mapY) := by
  unfold Grid.inBounds; infer_instance

/-- The player pose of the engine (`player.x/y/dirX/dirY/planeX/planeY`). -/
structure Pose where
  x : ℚ
  y : ℚ
  dirX : ℚ
  dirY : ℚ
  planeX : ℚ
  planeY : ℚ

/-! ## The DDA ray walk (`DoomEngine.render`, per-column loop) -/

/-- Outcome of the DDA walk: the final `mapX`/`mapY`/`side` of the
`while (!hit)` loop, together with the step directions the cast chose. -/
structure DDARes where
  mapX : ℤ
  mapY : ℤ
  side : ℕ
  stepX : ℤ
  stepY : ℤ
deriving DecidableEq

/-- The loop's hit test after a step: inside the grid a cell is a hit when
`worldMap[mapY][mapX] > 0`; outside the grid the ray is treated as a
boundary hit (`hit = true`). -/
def hitAt (g : Grid) (mapX mapY : ℤ) : Bool :=
  if g.inBounds mapX mapY then decide (0 < g.cell mapY mapX) else true

/-- The `while (!hit)` DDA loop.  Each iteration advances along the axis
whose accumulated `sideDist` is smaller, then applies `hitAt`.  `fuel`
bounds the number of iterations (`none` = fuel exhausted); the
termination theorems show `g.w + g.h` fuel always suffices. -/
def ddaLoop (g : Grid) (stepX stepY : ℤ) (dX dY : QInf) :
    ℕ → ℤ → ℤ → QInf → QInf → Option DDARes
  | 0, _, _, _, _ => none
  | fuel + 1, mapX, mapY, sX, sY =>
    if sX.lt sY then
      let mapX' := mapX + stepX
      if hitAt g mapX' mapY then some ⟨mapX', mapY, 0, stepX, stepY⟩
      else ddaLoop g stepX stepY dX dY fuel mapX' mapY (sX.add dX) sY
    else
      let mapY' := mapY + stepY
      if hitAt g mapX mapY' then some ⟨mapX, mapY', 1, stepX, stepY⟩
      else ddaLoop g stepX stepY dX dY fuel mapX mapY' sX (sY.add dY)

/-- Ray cast for one column: the initialisation
(`mapX = Math.floor(player.x)`, `deltaDist = Math.abs(1 / rayDir)`,
step/initial-`sideDist` selection by the sign of `rayDir`) followed by
the DDA loop with the given fuel. -/
def castRay (g : Grid) (fuel : ℕ) (px py rx ry : ℚ) : Option DDARes :=
  let mapX : ℤ := ⌊px⌋
  let mapY : ℤ := ⌊py⌋
  let dX : QInf := if rx = 0 then .inf else .fin |1 / rx|
  let dY : QInf := if ry = 0 then .inf else .fin |1 / ry|
  let stepX : ℤ := if rx < 0 then -1 else 1
  let stepY : ℤ := if ry < 0 then -1 else 1
  let sX : QInf := if rx < 0 then .scale (px - mapX) dX else .scale (mapX + 1 - px) dX
  let sY : QInf := if ry < 0 then .scale (py - mapY) dY else .scale (mapY + 1 - py) dY
  ddaLoop g stepX stepY dX dY fuel mapX mapY sX sY

/-- Perpendicular wall distance of a hit
(`perpWallDist = (mapX - player.x + (1 - stepX) / 2) / rayDirX` on
`side = 0`, the `y` analogue on `side = 1`).  On `side = 0` the loop
guarantees `rayDirX ≠ 0` (an infinite `sideDistX` never wins the
comparison), so the division is by a nonzero number. -/
def perpDist (px py rx ry : ℚ) (r : DDARes) : ℚ :=
  if r.side = 0 then ((r.mapX : ℚ) - px + (1 - (r.stepX : ℚ)) / 2) / rx
  else ((r.mapY : ℚ) - py + (1 - (r.stepY : ℚ)) / 2) / ry

/-- Sealed arena: every border cell of the grid holds a non-zero code. -/
def Grid.sealed (g : Grid) : Prop :=
  ∀ x y : ℤ, g.inBounds x y →
    (x = 0 ∨ x = (g.w : ℤ) - 1 ∨ y = 0 ∨ y = (g.h : ℤ) - 1) → g.cell y x ≠ 0

/-- A cell strictly inside the grid (not on the border ring). -/
def Grid.interior (g : Grid) (x y : ℤ) : Prop :=
  1 ≤ x ∧ x ≤ (g.w : ℤ) - 2 ∧ 1 ≤ y ∧ y ≤ (g.h : ℤ) - 2

/-- Steps remaining before the x coordinate leaves the grid when walking in
direction `stepX`. -/
def remX (g : Grid) (stepX mapX : ℤ) : ℤ :=
  if stepX = 1 then (g.w : ℤ) - mapX else mapX + 1

/-- Steps remaining before the y coordinate leaves the grid when walking in
direction `stepY`. -/
def remY (g : Grid) (stepY mapY : ℤ) : ℤ :=
  if stepY = 1 then (g.h : ℤ) - mapY else mapY + 1

lemma hitAt_eq_false {g : Grid} {x y : ℤ} (h : hitAt g x y = false) :
    g.inBounds x y ∧ g.cell y x = 0 := by
  unfold hitAt at h
  split at h
  · next hin =>
    refine ⟨hin, ?_⟩
    have := of_decide_eq_false h
    omega
  · simp at h

lemma hitAt_eq_true_of_inBounds {g : Grid} {x y : ℤ} (hin : g.inBounds x y)
    (h : hitAt g x y = true) : g.cell y x ≠ 0 := by
  unfold hitAt at h
  rw [if_pos hin] at h
  have := of_decide_eq_true h
  omega

/-- Every iteration of the DDA loop moves one cell further along a fixed
direction on one of the axes, so once the walk starts inside the grid it
reaches a hit (wall or boundary) before the per-axis step budgets run out. -/
lemma ddaLoop_total (g : Grid) (stepX stepY : ℤ) (dX dY : QInf)
    (hsx : stepX = 1 ∨ stepX = -1) (hsy : stepY = 1 ∨ stepY = -1) :
    ∀ (fuel : ℕ) (mapX mapY : ℤ) (sX sY : QInf),
      g.inBounds mapX mapY →
      remX g stepX mapX + remY g stepY mapY ≤ (fuel : ℤ) + 1 →
      ∃ r, ddaLoop g stepX stepY dX dY fuel mapX mapY sX sY = some r := by
  intro fuel
  induction fuel with
  | zero =>
    intro mapX mapY sX sY hb hm
    exfalso
    obtain ⟨h1, h2, h3, h4⟩ := hb
    rcases hsx with h | h <;> rcases hsy with h' | h' <;>
      rw [h, h'] at hm <;> simp [remX, remY] at hm <;> omega
  | succ n ih =>
    intro mapX mapY sX sY hb hm
    obtain ⟨h1, h2, h3, h4⟩ := hb
    rw [ddaLoop]
    cases hlt : sX.lt sY <;> simp only [hlt, Bool.false_eq_true, if_true, if_false]
    · -- y step
      cases hhit : hitAt g mapX (mapY + stepY)
      · simp only [Bool.false_eq_true, if_false]
        obtain ⟨hin', _⟩ := hitAt_eq_false hhit
        apply ih _ _ _ _ hin'
        rcases hsx with h | h <;> rcases hsy with h' | h' <;>
          rw [h, h'] at hm ⊢ <;> simp [remX, remY] at hm ⊢ <;> omega
      · exact ⟨_, rfl⟩
    · -- x step
      cases hhit : hitAt g (mapX + stepX) mapY
      · simp only [Bool.false_eq_true, if_false]
        obtain ⟨hin', _⟩ := hitAt_eq_false hhit
        apply ih _ _ _ _ hin'
        rcases hsx with h | h <;> rcases hsy with h' | h' <;>
          rw [h, h'] at hm ⊢ <;> simp [remX, remY] at hm ⊢ <;> omega
      · exact ⟨_, rfl⟩

/-- In a sealed grid the DDA loop started strictly inside the border ring
terminates at an in-bounds non-empty cell: an empty cell is never on the
border, so the walk can never leave the grid before hitting a wall. -/
lemma ddaLoop_sealed (g : Grid) (hseal : g.sealed) (stepX stepY : ℤ) (dX dY : QInf)
    (hsx : stepX = 1 ∨ stepX = -1) (hsy : stepY = 1 ∨ stepY = -1) :
    ∀ (fuel : ℕ) (mapX mapY : ℤ) (sX sY : QInf),
      g.interior mapX mapY →
      remX g stepX mapX + remY g stepY mapY ≤ (fuel : ℤ) + 2 →
      ∃ r, ddaLoop g stepX stepY dX dY fuel mapX mapY sX sY = some r ∧
        g.inBounds r.mapX r.mapY ∧ g.cell r.mapY r.mapX ≠ 0 := by
  intro fuel
  induction fuel with
  | zero =>
    intro mapX mapY sX sY hb hm
    exfalso
    obtain ⟨h1, h2, h3, h4⟩ := hb
    rcases hsx with h | h <;> rcases hsy with h' | h' <;>
      rw [h, h'] at hm <;> simp [remX, remY] at hm <;> omega
  | succ n ih =>
    intro mapX mapY sX sY hb hm
    obtain ⟨h1, h2, h3, h4⟩ := hb
    rw [ddaLoop]
    cases hlt : sX.lt sY <;> simp only [hlt, Bool.false_eq_true, if_true, if_false]
    · -- y step
      have hin' : g.inBounds mapX (mapY + stepY) := by
        refine ⟨by omega, by omega, ?_, ?_⟩ <;> rcases hsy with h' | h' <;> omega
      cases hhit : hitAt g mapX (mapY + stepY)
      · simp only [Bool.false_eq_true, if_false]
        obtain ⟨_, hcell⟩ := hitAt_eq_false hhit
        have hint : g.interior mapX (mapY + stepY) := by
          have hnb := hseal mapX (mapY + stepY) hin'
          obtain ⟨b1, b2, b3, b4⟩ := hin'
          refine ⟨by omega, by omega, ?_, ?_⟩ <;>
            by_contra hc <;> apply absurd hcell <;> apply hnb <;> omega
        apply ih _ _ _ _ hint
        rcases hsx with h | h <;> rcases hsy with h' | h' <;>
          rw [h, h'] at hm ⊢ <;> simp [remX, remY] at hm ⊢ <;> omega
      · exact ⟨_, rfl, hin', hitAt_eq_true_of_inBounds hin' hhit⟩
    · -- x step
      have hin' : g.inBounds (mapX + stepX) mapY := by
        refine ⟨?_, ?_, by omega, by omega⟩ <;> rcases hsx with h | h <;> omega
      cases hhit : hitAt g (mapX + stepX) mapY
      · simp only [Bool.false_eq_true, if_false]
        obtain ⟨_, hcell⟩ := hitAt_eq_false hhit
        have hint : g.interior (mapX + stepX) mapY := by
          have hnb := hseal (mapX + stepX) mapY hin'
          obtain ⟨b1, b2, b3, b4⟩ := hin'
          refine ⟨?_, ?_, by omega, by omega⟩ <;>
            by_contra hc <;> apply absurd hcell <;> apply hnb <;> omega
        apply ih _ _ _ _ hint
        rcases hsx with h | h <;> rcases hsy with h' | h' <;>
          rw [h, h'] at hm ⊢ <;> simp [remX, remY] at hm ⊢ <;> omega
      · exact ⟨_, rfl, hin', hitAt_eq_true_of_inBounds hin' hhit⟩

/-- **C3**: for every map grid, every in-bounds starting player cell
(`mapX = ⌊player.x⌋`, `mapY = ⌊player.y⌋`), and every non-degenerate ray
direction, the `while (!hit)` DDA loop terminates, within at most
`mapWidth + mapHeight` iterations (`fuel = g.w + g.h` always returns a
result). -/
theorem C3_dda_terminates (g : Grid) (px py rx ry : ℚ)
    (hx : 0 ≤ ⌊px⌋ ∧ ⌊px⌋ < (g.w : ℤ)) (hy : 0 ≤ ⌊py⌋ ∧ ⌊py⌋ < (g.h : ℤ))
    (hnd : ¬(rx = 0 ∧ ry = 0)) :
    ∃ r, castRay g (g.w + g.h) px py rx ry = some r := by
  have hsx : (if rx < 0 then (-1 : ℤ) else 1) = 1 ∨ (if rx < 0 then (-1 : ℤ) else 1) = -1 := by
    split
    · right; rfl
    · left; rfl
  have hsy : (if ry < 0 then (-1 : ℤ) else 1) = 1 ∨ (if ry < 0 then (-1 : ℤ) else 1) = -1 := by
    split
    · right; rfl
    · left; rfl
  have hmeas : remX g (if rx < 0 then (-1 : ℤ) else 1) ⌊px⌋ +
      remY g (if ry < 0 then (-1 : ℤ) else 1) ⌊py⌋ ≤ ((g.w + g.h : ℕ) : ℤ) + 1 := by
    rcases hsx with h | h <;> rcases hsy with h' | h' <;> rw [h, h'] <;>
      simp [remX, remY] <;> omega
  exact ddaLoop_total g _ _ _ _ hsx hsy (g.w + g.h) ⌊px⌋ ⌊py⌋ _ _
    ⟨hx.1, hx.2, hy.1, hy.2⟩ hmeas

/-- Witness for C3 on a concrete 2×2 grid and ray. -/
theorem C3_dda_terminates_witness :
    ∃ r, castRay ⟨2, 2, fun _ _ => 0⟩ (2 + 2) (1/2) (1/2) 1 0 = some r :=
  C3_dda_terminates ⟨2, 2, fun _ _ => 0⟩ (1/2) (1/2) 1 0
    (of_decide_eq_true (by with_unfolding_all rfl))
    (of_decide_eq_true (by with_unfolding_all rfl))
    (by simp)

/-- **C2**: for every ray cast during a render (arbitrary ray direction,
player's cell strictly inside a sealed grid), the DDA walk terminates at an
in-bounds non-empty cell — in particular it never ends at an out-of-bounds
boundary hit, so the subsequent wall-texture lookup
`worldMap[mapY][mapX] - 1` reads the grid at in-bounds indices only. -/
theorem C2_ray_ends_in_bounds (g : Grid) (px py rx ry : ℚ)
    (hseal : g.sealed)
    (hx : 1 ≤ ⌊px⌋ ∧ ⌊px⌋ ≤ (g.w : ℤ) - 2) (hy : 1 ≤ ⌊py⌋ ∧ ⌊py⌋ ≤ (g.h : ℤ) - 2) :
    ∃ r, castRay g (g.w + g.h) px py rx ry = some r ∧
      g.inBounds r.mapX r.mapY ∧ g.cell r.mapY r.mapX ≠ 0 := by
  have hsx : (if rx < 0 then (-1 : ℤ) else 1) = 1 ∨ (if rx < 0 then (-1 : ℤ) else 1) = -1 := by
    split
    · right; rfl
    · left; rfl
  have hsy : (if ry < 0 then (-1 : ℤ) else 1) = 1 ∨ (if ry < 0 then (-1 : ℤ) else 1) = -1 := by
    split
    · right; rfl
    · left; rfl
  have hmeas : remX g (if rx < 0 then (-1 : ℤ) else 1) ⌊px⌋ +
      remY g (if ry < 0 then (-1 : ℤ) else 1) ⌊py⌋ ≤ ((g.w + g.h : ℕ) : ℤ) + 2 := by
    rcases hsx with h | h <;> rcases hsy with h' | h' <;> rw [h, h'] <;>
      simp [remX, remY] <;> omega
  exact ddaLoop_sealed g hseal _ _ _ _ hsx hsy (g.w + g.h) ⌊px⌋ ⌊py⌋ _ _
    ⟨hx.1, hx.2, hy.1, hy.2⟩ hmeas

/-- The 3×3 grid of the end-to-end spec scenario: all eight border cells
hold wall id 1, the center cell is empty. -/
def grid3 : Grid := ⟨3, 3, fun y x => if x = 1 ∧ y = 1 then 0 else 1⟩

lemma grid3_sealed : grid3.sealed := by
  intro x y hin hb
  obtain ⟨b1, b2, b3, b4⟩ := hin
  simp only [grid3] at b2 b4 hb ⊢
  split
  · next hc => omega
  · exact one_ne_zero

/-- Witness for C2: the scenario grid with the player at its center. -/
theorem C2_ray_ends_in_bounds_witness :
    ∃ r, castRay grid3 (grid3.w + grid3.h) (3/2) (3/2) 1 (1/3) = some r ∧
      grid3.inBounds r.mapX r.mapY ∧ grid3.cell r.mapY r.mapX ≠ 0 :=
  C2_ray_ends_in_bounds grid3 (3/2) (3/2) 1 (1/3) grid3_sealed
    (of_decide_eq_true (by with_unfolding_all rfl))
    (of_decide_eq_true (by with_unfolding_all rfl))

/-- **C5**: on the 3×3 scenario grid with the player at `(1.5, 1.5)` facing
`(0, -1)`, the ray for `cameraX = 0` (ray direction `(0, -1)`) walks to map
cell `(1, 0)` with `side = 1` (`stepX = 1`, `stepY = -1`) and its
perpendicular wall distance is `0.5`. -/
theorem C5_center_ray_scenario :
    castRay grid3 (grid3.w + grid3.h) (3/2) (3/2) 0 (-1) =
      some ⟨1, 0, 1, 1, -1⟩ ∧
    perpDist (3/2) (3/2) 0 (-1) ⟨1, 0, 1, 1, -1⟩ = 1/2 :=
  ⟨of_decide_eq_true (by with_unfolding_all rfl),
   of_decide_eq_true (by with_unfolding_all rfl)⟩

/-! ## Movement and rotation (`DoomEngine.setupInput`) -/

/-- `const moveSpeed = 0.05`. -/
def moveSpeed : ℚ := 5 / 100

/-- Read of `worldMap[row][col]` in the movement tests.  `none` models an
index outside the grid: JavaScript yields `undefined` (never `=== 0`) for an
out-of-range column and a `TypeError` that aborts the handler for an
out-of-range row — either way the guarded assignment does not happen, i.e.
the move is blocked. -/
def wmAt (g : Grid) (row col : ℤ) : Option ℕ :=
  if 0 ≤ row ∧ row < (g.h : ℤ) ∧ 0 ≤ col ∧ col < (g.w : ℤ) then some (g.cell row col)
  else none

/-- `keys['w']`: move forward.  The x axis is tested (at double step
look-ahead) and updated first; the y-axis test then reads
`Math.floor(this.player.x)` — the already-updated x. -/
def moveForward (g : Grid) (p : Pose) : Pose :=
  let x' := if wmAt g ⌊p.y⌋ ⌊p.x + p.dirX * moveSpeed * 2⌋ = some 0 then
      p.x + p.dirX * moveSpeed else p.x
  let y' := if wmAt g ⌊p.y + p.dirY * moveSpeed * 2⌋ ⌊x'⌋ = some 0 then
      p.y + p.dirY * moveSpeed else p.y
  { p with x := x', y := y' }

/-- `keys['s']`: move backward. -/
def moveBackward (g : Grid) (p : Pose) : Pose :=
  let x' := if wmAt g ⌊p.y⌋ ⌊p.x - p.dirX * moveSpeed * 2⌋ = some 0 then
      p.x - p.dirX * moveSpeed else p.x
  let y' := if wmAt g ⌊p.y - p.dirY * moveSpeed * 2⌋ ⌊x'⌋ = some 0 then
      p.y - p.dirY * moveSpeed else p.y
  { p with x := x', y := y' }

/-- `keys['a']`: strafe left (`strafeX = -dirY⋅moveSpeed`,
`strafeY = dirX⋅moveSpeed`). -/
def strafeToLeft (g : Grid) (p : Pose) : Pose :=
  let strafeX := -p.dirY * moveSpeed
  let strafeY := p.dirX * moveSpeed
  let x' := if wmAt g ⌊p.y⌋ ⌊p.x + strafeX * 2⌋ = some 0 then p.x + strafeX else p.x
  let y' := if wmAt g ⌊p.y + strafeY * 2⌋ ⌊x'⌋ = some 0 then p.y + strafeY else p.y
  { p with x := x', y := y' }

/-- `keys['d']`: strafe right (`strafeX = dirY⋅moveSpeed`,
`strafeY = -dirX⋅moveSpeed`). -/
def strafeToRight (g : Grid) (p : Pose) : Pose :=
  let strafeX := p.dirY * moveSpeed
  let strafeY := -p.dirX * moveSpeed
  let x' := if wmAt g ⌊p.y⌋ ⌊p.x + strafeX * 2⌋ = some 0 then p.x + strafeX else p.x
  let y' := if wmAt g ⌊p.y + strafeY * 2⌋ ⌊x'⌋ = some 0 then p.y + strafeY else p.y
  { p with x := x', y := y' }

/-- The four movement intents of the input handler. -/
inductive Intent where
  | forward
  | backward
  | strafeL
  | strafeR

/-- Dispatch of one movement intent. -/
def applyMove (g : Grid) (p : Pose) : Intent → Pose
  | .forward => moveForward g p
  | .backward => moveBackward g p
  | .strafeL => strafeToLeft g p
  | .strafeR => strafeToRight g p

/-- The per-axis displacement each intent adds when unobstructed. -/
def intentDelta (p : Pose) : Intent → ℚ × ℚ
  | .forward => (p.dirX * moveSpeed, p.dirY * moveSpeed)
  | .backward => (-(p.dirX * moveSpeed), -(p.dirY * moveSpeed))
  | .strafeL => (-p.dirY * moveSpeed, p.dirX * moveSpeed)
  | .strafeR => (p.dirY * moveSpeed, -p.dirX * moveSpeed)

lemma step_iff (α : Prop) [Decidable α] (v δ : ℚ) (hδ : δ ≠ 0) :
    ((if α then v + δ else v) = v + δ ↔ α) ∧
    ((if α then v + δ else v) ≠ v + δ → (if α then v + δ else v) = v) := by
  by_cases h : α
  · rw [if_pos h]
    exact ⟨⟨fun _ => h, fun _ => rfl⟩, fun hne => absurd rfl hne⟩
  · rw [if_neg h]
    exact ⟨⟨fun he => absurd (self_eq_add_right.mp he) hδ, fun hc => absurd hc h⟩,
      fun _ => rfl⟩

/-- **C7**: movement is resolved independently per axis: for every intent the
x coordinate advances by its displacement iff the x-axis target cell (tested
at double-step look-ahead, per the source) is traversable, the y coordinate
advances iff the y-axis target cell (read at the already-updated x column)
is traversable, and a blocked axis leaves its coordinate unchanged — so
motion blocked on one axis but open on the other slides along the wall. -/
theorem C7_per_axis_collision (g : Grid) (p : Pose) (i : Intent)
    (hdx : (intentDelta p i).1 ≠ 0) (hdy : (intentDelta p i).2 ≠ 0) :
    ((applyMove g p i).x = p.x + (intentDelta p i).1 ↔
      wmAt g ⌊p.y⌋ ⌊p.x + (intentDelta p i).1 * 2⌋ = some 0) ∧
    ((applyMove g p i).y = p.y + (intentDelta p i).2 ↔
      wmAt g ⌊p.y + (intentDelta p i).2 * 2⌋ ⌊(applyMove g p i).x⌋ = some 0) ∧
    ((applyMove g p i).x ≠ p.x + (intentDelta p i).1 → (applyMove g p i).x = p.x) ∧
    ((applyMove g p i).y ≠ p.y + (intentDelta p i).2 → (applyMove g p i).y = p.y) := by
  cases i with
  | forward =>
    simp only [intentDelta] at hdx hdy ⊢
    have hX : (applyMove g p .forward).x =
        (if wmAt g ⌊p.y⌋ ⌊p.x + p.dirX * moveSpeed * 2⌋ = some 0 then
          p.x + p.dirX * moveSpeed else p.x) := rfl
    have hY : (applyMove g p .forward).y =
        (if wmAt g ⌊p.y + p.dirY * moveSpeed * 2⌋ ⌊(applyMove g p .forward).x⌋ = some 0 then
          p.y + p.dirY * moveSpeed else p.y) := rfl
    rw [hY, hX]
    exact ⟨(step_iff _ _ _ hdx).1, (step_iff _ _ _ hdy).1,
      (step_iff _ _ _ hdx).2, (step_iff _ _ _ hdy).2⟩
  | backward =>
    simp only [intentDelta] at hdx hdy ⊢
    have e1 : p.x + -(p.dirX * moveSpeed) * 2 = p.x - p.dirX * moveSpeed * 2 := by ring
    have e2 : p.y + -(p.dirY * moveSpeed) * 2 = p.y - p.dirY * moveSpeed * 2 := by ring
    have e3 : p.x + -(p.dirX * moveSpeed) = p.x - p.dirX * moveSpeed := by ring
    have e4 : p.y + -(p.dirY * moveSpeed) = p.y - p.dirY * moveSpeed := by ring
    have hX : (applyMove g p .backward).x =
        (if wmAt g ⌊p.y⌋ ⌊p.x + -(p.dirX * moveSpeed) * 2⌋ = some 0 then
          p.x + -(p.dirX * moveSpeed) else p.x) := by rw [e1, e3]; rfl
    have hY : (applyMove g p .backward).y =
        (if wmAt g ⌊p.y + -(p.dirY * moveSpeed) * 2⌋ ⌊(applyMove g p .backward).x⌋ = some 0
          then p.y + -(p.dirY * moveSpeed) else p.y) := by rw [e2, e4]; rfl
    rw [hY, hX]
    exact ⟨(step_iff _ _ _ hdx).1, (step_iff _ _ _ hdy).1,
      (step_iff _ _ _ hdx).2, (step_iff _ _ _ hdy).2⟩
  | strafeL =>
    simp only [intentDelta] at hdx hdy ⊢
    have hX : (applyMove g p .strafeL).x =
        (if wmAt g ⌊p.y⌋ ⌊p.x + -p.dirY * moveSpeed * 2⌋ = some 0 then
          p.x + -p.dirY * moveSpeed else p.x) := rfl
    have hY : (applyMove g p .strafeL).y =
        (if wmAt g ⌊p.y + p.dirX * moveSpeed * 2⌋ ⌊(applyMove g p .strafeL).x⌋ = some 0 then
          p.y + p.dirX * moveSpeed else p.y) := rfl
    rw [hY, hX]
    exact ⟨(step_iff _ _ _ hdx).1, (step_iff _ _ _ hdy).1,
      (step_iff _ _ _ hdx).2, (step_iff _ _ _ hdy).2⟩
  | strafeR =>
    simp only [intentDelta] at hdx hdy ⊢
    have hX : (applyMove g p .strafeR).x =
        (if wmAt g ⌊p.y⌋ ⌊p.x + p.dirY * moveSpeed * 2⌋ = some 0 then
          p.x + p.dirY * moveSpeed else p.x) := rfl
    have hY : (applyMove g p .strafeR).y =
        (if wmAt g ⌊p.y + -p.dirX * moveSpeed * 2⌋ ⌊(applyMove g p .strafeR).x⌋ = some 0 then
          p.y + -p.dirX * moveSpeed else p.y) := rfl
    rw [hY, hX]
    exact ⟨(step_iff _ _ _ hdx).1, (step_iff _ _ _ hdy).1,
      (step_iff _ _ _ hdx).2, (step_iff _ _ _ hdy).2⟩

/-- An all-empty 32×32 grid, for concrete witnesses. -/
def gOpen : Grid := ⟨32, 32, fun _ _ => 0⟩

/-- A concrete pose for witnesses. -/
def pW : Pose := ⟨11/2, 11/2, 1, 1, 0, 0⟩

/-- Witness for C7: with both target cells empty, both axes advance. -/
theorem C7_per_axis_collision_witness :
    (applyMove gOpen pW Intent.forward).x = pW.x + (intentDelta pW Intent.forward).1 ∧
    (applyMove gOpen pW Intent.forward).y = pW.y + (intentDelta pW Intent.forward).2 :=
  ⟨(C7_per_axis_collision gOpen pW .forward
      (of_decide_eq_true (by with_unfolding_all rfl))
      (of_decide_eq_true (by with_unfolding_all rfl))).1.mpr
      (of_decide_eq_true (by with_unfolding_all rfl)),
   (C7_per_axis_collision gOpen pW .forward
      (of_decide_eq_true (by with_unfolding_all rfl))
      (of_decide_eq_true (by with_unfolding_all rfl))).2.1.mpr
      (of_decide_eq_true (by with_unfolding_all rfl))⟩

lemma floor_between (x δ : ℚ) (h : |δ * 2| < 1) :
    ⌊x + δ⌋ = ⌊x⌋ ∨ ⌊x + δ⌋ = ⌊x + δ * 2⌋ := by
  rcases le_or_lt 0 δ with h0 | h0
  · have m1 : ⌊x⌋ ≤ ⌊x + δ⌋ := Int.floor_mono (by linarith)
    have m2 : ⌊x + δ⌋ ≤ ⌊x + δ * 2⌋ := Int.floor_mono (by linarith)
    have m3 : ⌊x + δ * 2⌋ ≤ ⌊x⌋ + 1 := by
      rw [← Int.floor_add_one]
      refine Int.floor_mono ?_
      rw [abs_of_nonneg (by linarith)] at h
      linarith
    omega
  · have m1 : ⌊x + δ⌋ ≤ ⌊x⌋ := Int.floor_mono (by linarith)
    have m2 : ⌊x + δ * 2⌋ ≤ ⌊x + δ⌋ := Int.floor_mono (by linarith)
    have m3 : ⌊x⌋ - 1 ≤ ⌊x + δ * 2⌋ := by
      have hf : ⌊x - 1⌋ ≤ ⌊x + δ * 2⌋ := by
        refine Int.floor_mono ?_
        rw [abs_of_nonpos (by linarith)] at h
        linarith
      rw [Int.floor_sub_one] at hf
      omega
    omega

/-- One movement update, in the generic shape shared by all four intents:
if the start cell is empty then the end cell is still empty, because the
cell actually landed in is either the start cell or the tested
double-look-ahead cell. -/
lemma slide_keeps_empty (g : Grid) (x y δx δy x' y' : ℚ)
    (hdx : |δx * 2| < 1) (hdy : |δy * 2| < 1)
    (hx' : x' = if wmAt g ⌊y⌋ ⌊x + δx * 2⌋ = some 0 then x + δx else x)
    (hy' : y' = if wmAt g ⌊y + δy * 2⌋ ⌊x'⌋ = some 0 then y + δy else y)
    (h0 : wmAt g ⌊y⌋ ⌊x⌋ = some 0) :
    wmAt g ⌊y'⌋ ⌊x'⌋ = some 0 := by
  have hx0 : wmAt g ⌊y⌋ ⌊x'⌋ = some 0 := by
    by_cases hc : wmAt g ⌊y⌋ ⌊x + δx * 2⌋ = some 0
    · rw [hx', if_pos hc]
      rcases floor_between x δx hdx with he | he <;> rw [he] <;> assumption
    · rw [hx', if_neg hc]
      exact h0
  by_cases hc : wmAt g ⌊y + δy * 2⌋ ⌊x'⌋ = some 0
  · rw [hy', if_pos hc]
    rcases floor_between y δy hdy with he | he <;> rw [he] <;> assumption
  · rw [hy', if_neg hc]
    exact hx0

lemma delta_small {d : ℚ} (hd : |d| ≤ 1) : |d * moveSpeed * 2| < 1 := by
  have h1 : |d * moveSpeed * 2| = |d| * (moveSpeed * 2) := by
    rw [mul_assoc, abs_mul]
    norm_num [moveSpeed]
  rw [h1, moveSpeed]
  nlinarith [abs_nonneg d]

/-- **C9**: a single movement update at `moveSpeed = 0.05` with a unit-bounded
direction vector keeps the player's containing cell empty: if
`worldMap[⌊y⌋][⌊x⌋] = 0` before the update then it is `0` after, for every
intent — the player never ends a movement update inside a wall cell. -/
theorem C9_move_keeps_cell_empty (g : Grid) (p : Pose) (i : Intent)
    (hd1 : |p.dirX| ≤ 1) (hd2 : |p.dirY| ≤ 1)
    (h0 : wmAt g ⌊p.y⌋ ⌊p.x⌋ = some 0) :
    wmAt g ⌊(applyMove g p i).y⌋ ⌊(applyMove g p i).x⌋ = some 0 := by
  have hd1' : |(-p.dirX) * moveSpeed * 2| < 1 := by
    rw [neg_mul, neg_mul, abs_neg]
    exact delta_small hd1
  have hd2' : |(-p.dirY) * moveSpeed * 2| < 1 := by
    rw [neg_mul, neg_mul, abs_neg]
    exact delta_small hd2
  cases i with
  | forward =>
    exact slide_keeps_empty g p.x p.y (p.dirX * moveSpeed) (p.dirY * moveSpeed) _ _
      (delta_small hd1) (delta_small hd2) rfl rfl h0
  | backward =>
    refine slide_keeps_empty g p.x p.y (-(p.dirX * moveSpeed)) (-(p.dirY * moveSpeed)) _ _
      (by rw [← neg_mul]; exact hd1') (by rw [← neg_mul]; exact hd2') ?_ ?_ h0
    · rw [show p.x + -(p.dirX * moveSpeed) * 2 = p.x - p.dirX * moveSpeed * 2 by ring,
        show p.x + -(p.dirX * moveSpeed) = p.x - p.dirX * moveSpeed by ring]
      rfl
    · rw [show p.y + -(p.dirY * moveSpeed) * 2 = p.y - p.dirY * moveSpeed * 2 by ring,
        show p.y + -(p.dirY * moveSpeed) = p.y - p.dirY * moveSpeed by ring]
      rfl
  | strafeL =>
    exact slide_keeps_empty g p.x p.y (-p.dirY * moveSpeed) (p.dirX * moveSpeed) _ _
      hd2' (delta_small hd1) rfl rfl h0
  | strafeR =>
    exact slide_keeps_empty g p.x p.y (p.dirY * moveSpeed) (-p.dirX * moveSpeed) _ _
      (delta_small hd2) hd1' rfl rfl h0

/-- Witness for C9 on the all-empty grid. -/
theorem C9_move_keeps_cell_empty_witness :
    wmAt gOpen ⌊(applyMove gOpen pW Intent.strafeL).y⌋ ⌊(applyMove gOpen pW Intent.strafeL).x⌋ =
      some 0 :=
  C9_move_keeps_cell_empty gOpen pW .strafeL
    (of_decide_eq_true (by with_unfolding_all rfl))
    (of_decide_eq_true (by with_unfolding_all rfl))
    (of_decide_eq_true (by with_unfolding_all rfl))

/-- Rotation of the pose (`ArrowLeft`/`ArrowRight`): the source applies the
2×2 rotation matrix with entries `Math.cos(±rotSpeed)`/`Math.sin(±rotSpeed)`
to both `direction` and `cameraPlane`, keeping the pre-update `dirX`/`planeX`
in `oldDirX`/`oldPlaneX`.  Here `c`/`s` stand for the cosine/sine pair of the
rotation angle (`(cos rotSpeed, sin rotSpeed)` for right,
`(cos rotSpeed, -sin rotSpeed)` for left), so `c² + s² = 1`. -/
def rotatePose (c s : ℚ) (p : Pose) : Pose :=
  { p with
    dirX := p.dirX * c - p.dirY * s
    dirY := p.dirX * s + p.dirY * c
    planeX := p.planeX * c - p.planeY * s
    planeY := p.planeX * s + p.planeY * c }

/-- **C6**: one rotation step (either direction) preserves, in exact
arithmetic, the dot product of `direction` and `cameraPlane` (so
perpendicularity is preserved) and the squared magnitude of the camera
plane (the field of view). -/
theorem C6_rotation_invariants (p : Pose) (c s : ℚ) (h : c ^ 2 + s ^ 2 = 1) :
    (rotatePose c s p).dirX * (rotatePose c s p).planeX +
        (rotatePose c s p).dirY * (rotatePose c s p).planeY =
      p.dirX * p.planeX + p.dirY * p.planeY ∧
    (rotatePose c s p).planeX ^ 2 + (rotatePose c s p).planeY ^ 2 =
      p.planeX ^ 2 + p.planeY ^ 2 := by
  simp only [rotatePose]
  constructor
  · linear_combination (p.dirX * p.planeX + p.dirY * p.planeY) * h
  · linear_combination (p.planeX ^ 2 + p.planeY ^ 2) * h

/-- The engine's initial pose (`x: 15.5, y: 15.5, dirX: -1, dirY: 0,
planeX: 0, planeY: 0.66`). -/
def pStart : Pose := ⟨31/2, 31/2, -1, 0, 0, 33/50⟩

/-- Witness for C6 at the initial pose with the unit pair `(3/5, 4/5)`. -/
theorem C6_rotation_invariants_witness :
    (rotatePose (3/5) (4/5) pStart).dirX * (rotatePose (3/5) (4/5) pStart).planeX +
        (rotatePose (3/5) (4/5) pStart).dirY * (rotatePose (3/5) (4/5) pStart).planeY =
      pStart.dirX * pStart.planeX + pStart.dirY * pStart.planeY ∧
    (rotatePose (3/5) (4/5) pStart).planeX ^ 2 + (rotatePose (3/5) (4/5) pStart).planeY ^ 2 =
      pStart.planeX ^ 2 + pStart.planeY ^ 2 :=
  C6_rotation_invariants pStart (3/5) (4/5) (by norm_num)

/-! ## The per-column renderer (`DoomEngine.render`) -/

/-- A procedural texture: `pixels i` is `texture.pixels[i]` (packed RGB). -/
structure Texture where
  width : ℕ
  height : ℕ
  pixels : ℕ → ℕ

/-- Fallback for a texture-list lookup outside the list (unreachable in the
render paths the theorems cover, where the hit cell code is positive). -/
def defaultTexture : Texture := ⟨64, 64, fun _ => 0⟩

/-- `cameraX = 2 * x / this.width - 1`. -/
def cameraX (W x : ℕ) : ℚ := 2 * x / W - 1

/-- `lineHeight = Math.floor(this.height / perpWallDist)`. -/
def lineHeightOf (H : ℕ) (perp : ℚ) : ℤ := ⌊(H : ℚ) / perp⌋

/-- `drawStart = -lineHeight / 2 + this.height / 2; if (drawStart < 0)
drawStart = 0`.  Not an integer when `lineHeight` is odd — the JavaScript
loop counters then take fractional values. -/
def drawStartOf (H : ℕ) (lh : ℤ) : ℚ :=
  let ds := -(lh : ℚ) / 2 + (H : ℚ) / 2
  if ds < 0 then 0 else ds

/-- `drawEnd = lineHeight / 2 + this.height / 2; if (drawEnd >= height)
drawEnd = height - 1`. -/
def drawEndOf (H : ℕ) (lh : ℤ) : ℚ :=
  let de := (lh : ℚ) / 2 + (H : ℚ) / 2
  if (H : ℚ) ≤ de then (H : ℚ) - 1 else de

/-- `d = y * 256 - height * 128 + lineHeight * 128;
texY = Math.floor((d * texture.height) / lineHeight / 256)`. -/
def texYOf (H texH : ℕ) (lh : ℤ) (y : ℚ) : ℤ :=
  ⌊(y * 256 - (H : ℚ) * 128 + (lh : ℚ) * 128) * (texH : ℚ) / (lh : ℚ) / 256⌋

/-- Byte extraction `(color >> 16) & 0xFF`, `(color >> 8) & 0xFF`,
`color & 0xFF` — the three RGB bytes written to the frame buffer. -/
def toBytes (color : ℕ) : ℕ × ℕ × ℕ :=
  (color / 2 ^ 16 % 2 ^ 8, color / 2 ^ 8 % 2 ^ 8, color % 2 ^ 8)

/-- Texel fetched for one wall pixel
(`texture.pixels[texY * texture.width + texX]`), with each channel halved
(`>> 1`) and recombined (`(r << 16) | (g << 8) | b`) when `side = 1`. -/
def wallColorAt (tex : Texture) (side : ℕ) (texX : ℕ) (texY : ℤ) : ℕ × ℕ × ℕ :=
  let color := tex.pixels (texY.toNat * tex.width + texX)
  let color := if side = 1 then
      (color / 2 ^ 16 % 2 ^ 8 / 2) * 2 ^ 16 + (color / 2 ^ 8 % 2 ^ 8 / 2) * 2 ^ 8 +
        color % 2 ^ 8 / 2
    else color
  toBytes color

/-- The per-column values the wall/floor/ceiling pixel loops read. -/
structure ColumnCtx where
  res : DDARes
  perp : ℚ
  lh : ℤ
  ds : ℚ
  de : ℚ
  tex : Texture
  texX : ℕ

/-- Everything `render` computes for column `x` between the DDA hit and the
pixel loops: `perpWallDist`, `lineHeight`, the draw bounds, the texture
choice `textures[(worldMap[mapY][mapX] - 1) % textures.length]`, and the
texture column `texX = Math.floor(wallX * texture.width)` from the
fractional wall-hit coordinate `wallX`. -/
def mkCtx (g : Grid) (texs : List Texture) (p : Pose) (W H x : ℕ) (res : DDARes) :
    ColumnCtx :=
  let rx := p.dirX + p.planeX * cameraX W x
  let ry := p.dirY + p.planeY * cameraX W x
  let perp := perpDist p.x p.y rx ry res
  let lh := lineHeightOf H perp
  let texNum := g.cell res.mapY res.mapX - 1
  let tex := texs.getD (texNum % texs.length) defaultTexture
  let wallX := if res.side = 0 then p.y + perp * ry else p.x + perp * rx
  let wallX := wallX - ⌊wallX⌋
  let texX := (⌊wallX * (tex.width : ℚ)⌋).toNat
  ⟨res, perp, lh, drawStartOf H lh, drawEndOf H lh, tex, texX⟩

/-- Does the wall loop `for (let y = drawStart; y < drawEnd; y++)` put a
write on integer row `r`?  The counter takes the values `drawStart + k`,
`k : ℕ`, while `< drawEnd`; a write lands on pixel row `r` exactly when
`drawStart ≤ r`, `r - drawStart` is an integer, and `r < drawEnd`
(JavaScript silently drops typed-array writes at fractional indices). -/
def wallRowB (ds de : ℚ) (r : ℕ) : Bool :=
  decide (ds ≤ (r : ℚ)) && decide (((r : ℚ) - ds).den = 1) && decide ((r : ℚ) < de)

/-- Does the floor loop `for (let y = drawEnd + 1; y < height; y++)` put a
write on integer row `r`? -/
def floorRowB (de : ℚ) (H r : ℕ) : Bool :=
  decide (de + 1 ≤ (r : ℚ)) && decide (((r : ℚ) - (de + 1)).den = 1) && decide (r < H)

/-- The value the three per-column loops leave at row `r` (`none` = no write
landed, the buffer keeps its `createImageData` zero fill).  The wall loop
writes only when its `texY` bounds check passes; floor and ceiling rows
receive the flat byte triples `fc`/`cc`; the ceiling loop
`for (let y = 0; y < drawStart; y++)` covers exactly the integer rows below
`drawStart`. -/
def pixelOfCtx (H : ℕ) (fc cc : ℕ × ℕ × ℕ) (c : ColumnCtx) (r : ℕ) :
    Option (ℕ × ℕ × ℕ) :=
  if wallRowB c.ds c.de r then
    let texY := texYOf H c.tex.height c.lh (r : ℚ)
    if 0 ≤ texY ∧ texY < (c.tex.height : ℤ) then
      some (wallColorAt c.tex c.res.side c.texX texY)
    else none
  else if floorRowB c.de H r then some fc
  else if decide ((r : ℚ) < c.ds) then some cc
  else none

/-- One column of `render` in `src/src/main.ts` (1024×768): floor rows get
bytes `0x40/0x20/0x10`, ceiling rows `0x20/0x10/0x08`.  `none` before the
cast = DDA fuel exhausted (never happens from an in-bounds start). -/
def mainColumnPixel (g : Grid) (texs : List Texture) (p : Pose) (x r : ℕ) :
    Option (ℕ × ℕ × ℕ) :=
  match castRay g (g.w + g.h) p.x p.y (p.dirX + p.planeX * cameraX 1024 x)
      (p.dirY + p.planeY * cameraX 1024 x) with
  | none => none
  | some res =>
    pixelOfCtx 768 (0x40, 0x20, 0x10) (0x20, 0x10, 0x08) (mkCtx g texs p 1024 768 x res) r

/-- The full frame buffer of one `render` call of `src/src/main.ts`, as a
function from (column, row) to the RGB bytes written there. -/
def mainFrame (g : Grid) (texs : List Texture) (p : Pose) :
    ℕ → ℕ → Option (ℕ × ℕ × ℕ) :=
  fun x r => if x < 1024 then mainColumnPixel g texs p x r else none

/-- The render step of `src/src/main.ts` as a state transformer over the
ambient `Math.random()` stream cursor: the body of this `render` makes no
`Math.random()` call, so the buffer depends only on Pose/Grid/Textures and
the cursor is returned unchanged. -/
def mainRenderStep (g : Grid) (texs : List Texture) (p : Pose) (rng : ℕ → ℚ)
    (k : ℕ) : (ℕ → ℕ → Option (ℕ × ℕ × ℕ)) × ℕ :=
  (mainFrame g texs p, k)

/-- **C1** (amended, the part that holds): the `src/src/main.ts` render step
is a pure function of Pose, Map Grid and Textures — it draws nothing from
the pseudo-random stream, so calling it twice in succession with no input
mutation (the second call starting at the cursor the first returned)
produces identical frame buffers. -/
theorem C1_main_render_deterministic (g : Grid) (texs : List Texture) (p : Pose)
    (rng : ℕ → ℚ) (k : ℕ) :
    (mainRenderStep g texs p rng k).1 =
      (mainRenderStep g texs p rng (mainRenderStep g texs p rng k).2).1 := rfl

/-- part_001's `floorColors` palette. -/
def floorColors : List ℕ := [0x402010, 0x4a2a1a, 0x351a0e]

/-- part_001's `ceilingColors` palette. -/
def ceilingColors : List ℕ := [0x201010, 0x251515, 0x1a0e0e]

/-- One column of `render` in `src/unnamed/part_001` (960×720).  Its floor
and ceiling colors are drawn per column from the pseudo-random stream
(`floorColors[Math.floor(Math.random() * floorColors.length)]`, then the
ceiling analogue): the two draws of column `x` in a render starting at
cursor `k` are `k + 2x` and `k + 2x + 1`. -/
def part001ColumnPixel (g : Grid) (texs : List Texture) (p : Pose) (rng : ℕ → ℚ)
    (k x r : ℕ) : Option (ℕ × ℕ × ℕ) :=
  match castRay g (g.w + g.h) p.x p.y (p.dirX + p.planeX * cameraX 960 x)
      (p.dirY + p.planeY * cameraX 960 x) with
  | none => none
  | some res =>
    let fc := floorColors.getD (⌊rng (k + 2 * x) * (floorColors.length : ℚ)⌋).toNat 0
    let cc := ceilingColors.getD (⌊rng (k + 2 * x + 1) * (ceilingColors.length : ℚ)⌋).toNat 0
    pixelOfCtx 720 (toBytes fc) (toBytes cc) (mkCtx g texs p 960 720 x res) r

/-- The pistol overlay of part_001's render (drawn when `weapon === 0`): the
grey block `wx ∈ (80, 120)`, `wy ∈ (150, 200)` of the 200×200 weapon box
anchored at `weaponX = (960 - 200) / 2 + 50 = 430`,
`weaponY = 720 - 200 + 20 + weaponBob = 540 + weaponBob`.  A write lands on
integer row `r` only when `weaponBob` makes `weaponY + wy` integral and the
pixel is on screen. -/
def gunPixelB (bob : ℚ) (x r : ℕ) : Bool :=
  decide (430 + 80 < x) && decide (x < 430 + 120) &&
  decide (((r : ℚ) - (540 + bob)).den = 1) && decide (540 + bob + 150 < (r : ℚ)) &&
  decide ((r : ℚ) < 540 + bob + 200) && decide (r < 720)

/-- Frame buffer of one part_001 render call starting at random cursor `k`,
with the weapon overlay, plus the advanced cursor (2 draws per column ×
960 columns). -/
def part001RenderStep (g : Grid) (texs : List Texture) (p : Pose) (weapon : ℕ)
    (bob : ℚ) (rng : ℕ → ℚ) (k : ℕ) : (ℕ → ℕ → Option (ℕ × ℕ × ℕ)) × ℕ :=
  (fun x r =>
    if weapon = 0 ∧ gunPixelB bob x r then some (0x44, 0x44, 0x44)
    else if x < 960 then part001ColumnPixel g texs p rng k x r else none,
   k + 2 * 960)

/-- 3×5 grid whose middle column is open and everything else wall id 1. -/
def grid35 : Grid := ⟨3, 5, fun y x => if x = 1 ∧ 1 ≤ y ∧ y ≤ 3 then 0 else 1⟩

/-- Player at `(1.5, 3.5)` facing `(0, -1)` with a degenerate camera plane,
so every column casts the ray `(0, -1)` and hits cell `(1, 0)` at
perpendicular distance `2.5`. -/
def pC : Pose := ⟨3/2, 7/2, 0, -1, 0, 0⟩

/-- Eight copies of a flat white 64×64 texture. -/
def texsW : List Texture := List.replicate 8 ⟨64, 64, fun _ => 0xFFFFFF⟩

/-- A pseudo-random stream whose draw 0 is `0` and whose draw 1920 is `1/3`:
the first render call picks floor palette entry 0 for column 0, the second
call (cursor advanced by 1920) picks entry 1. -/
def rngC : ℕ → ℚ := fun n => if n < 1920 then 0 else 1/3

/-- **C1** counterexample: the part_001 render step is *not* a deterministic
function of Pose/Map Grid/Textures — two successive render calls with no
input mutation in between differ at the floor pixel of column 0, row 600
(`0x402010` vs `0x4a2a1a`), because each call consumes fresh pseudo-random
floor/ceiling palette draws. -/
theorem C1_part001_two_frames_differ :
    ¬ ((part001RenderStep grid35 texsW pC 1 0 rngC 0).1 =
       (part001RenderStep grid35 texsW pC 1 0 rngC
         ((part001RenderStep grid35 texsW pC 1 0 rngC 0).2)).1) := by
  intro h
  have h2 := congrFun (congrFun h 0) 600
  rw [show (part001RenderStep grid35 texsW pC 1 0 rngC 0).1 0 600 =
        some (0x40, 0x20, 0x10) from of_decide_eq_true (by with_unfolding_all rfl),
      show (part001RenderStep grid35 texsW pC 1 0 rngC
          ((part001RenderStep grid35 texsW pC 1 0 rngC 0).2)).1 0 600 =
        some (0x4a, 0x2a, 0x1a) from of_decide_eq_true (by with_unfolding_all rfl)] at h2
  exact absurd h2 (by simp)

lemma den_one_nat_sub_int (r : ℕ) (n : ℤ) : ((r : ℚ) - (n : ℚ)).den = 1 := by
  have h : (r : ℚ) - (n : ℚ) = (((r : ℤ) - n : ℤ) : ℚ) := by push_cast; ring
  rw [h, Rat.den_intCast]

/-- For a pixel row inside the wall strip the interpolated texture row
passes the source's `texY >= 0 && texY < texture.height` check. -/
lemma texY_bounds (texH : ℕ) (lh : ℤ) (r : ℚ) (hlh : 0 < lh) (htex : 0 < texH)
    (hlow : -(lh : ℚ) / 2 + ((768 : ℕ) : ℚ) / 2 ≤ r)
    (hhigh : r < (lh : ℚ) / 2 + ((768 : ℕ) : ℚ) / 2) :
    0 ≤ texYOf 768 texH lh r ∧ texYOf 768 texH lh r < (texH : ℤ) := by
  unfold texYOf
  have hlhQ : (0 : ℚ) < (lh : ℚ) := by exact_mod_cast hlh
  have htexQ : (0 : ℚ) < (texH : ℚ) := by exact_mod_cast htex
  push_cast at hlow hhigh
  have hd0 : 0 ≤ r * 256 - ((768 : ℕ) : ℚ) * 128 + (lh : ℚ) * 128 := by
    push_cast; linarith
  have hd1 : r * 256 - ((768 : ℕ) : ℚ) * 128 + (lh : ℚ) * 128 < 256 * (lh : ℚ) := by
    push_cast; linarith
  constructor
  · rw [Int.le_floor]
    push_cast
    have : (0:ℚ) ≤ (r * 256 - 768 * 128 + (lh : ℚ) * 128) * (texH : ℚ) := by
      push_cast at hd0
      nlinarith
    positivity
  · rw [Int.floor_lt]
    rw [div_div, div_lt_iff (by positivity)]
    push_cast at hd1 ⊢
    nlinarith

/-- **C8** (amended): each `render` call of `src/src/main.ts` writes every
pixel row of a column except the single boundary row `drawEnd`: rows above
`drawStart` get the flat ceiling bytes, rows in `[drawStart, drawEnd)` get a
wall texel, rows strictly below `drawEnd` get the flat floor bytes, and row
`drawEnd` itself is written by no loop (the wall loop stops strictly before
it, the floor loop starts at `drawEnd + 1`), keeping its zero
initialisation.  Stated for columns with positive even `lineHeight`; an odd
`lineHeight` makes `drawStart`/`drawEnd` non-integral, so the wall and floor
loop counters take fractional values and land on no pixel row at all. -/
theorem C8_row_coverage (g : Grid) (texs : List Texture) (p : Pose) (x : ℕ)
    (res : DDARes)
    (hcast : castRay g (g.w + g.h) p.x p.y (p.dirX + p.planeX * cameraX 1024 x)
      (p.dirY + p.planeY * cameraX 1024 x) = some res)
    (hlh : 0 < (mkCtx g texs p 1024 768 x res).lh)
    (heven : Even (mkCtx g texs p 1024 768 x res).lh)
    (htex : 0 < (mkCtx g texs p 1024 768 x res).tex.height)
    (r : ℕ) (hr : r < 768) :
    ((r : ℚ) < (mkCtx g texs p 1024 768 x res).ds →
      mainColumnPixel g texs p x r = some (0x20, 0x10, 0x08)) ∧
    ((mkCtx g texs p 1024 768 x res).ds ≤ (r : ℚ) ∧
        (r : ℚ) < (mkCtx g texs p 1024 768 x res).de →
      ∃ pix, mainColumnPixel g texs p x r = some pix) ∧
    ((mkCtx g texs p 1024 768 x res).de < (r : ℚ) →
      mainColumnPixel g texs p x r = some (0x40, 0x20, 0x10)) ∧
    ((r : ℚ) = (mkCtx g texs p 1024 768 x res).de →
      mainColumnPixel g texs p x r = none) := by
  set c := mkCtx g texs p 1024 768 x res with hc
  have hpix : mainColumnPixel g texs p x r =
      pixelOfCtx 768 (0x40, 0x20, 0x10) (0x20, 0x10, 0x08) c r := by
    unfold mainColumnPixel
    rw [hcast]
  have hds : c.ds = drawStartOf 768 c.lh := rfl
  have hde : c.de = drawEndOf 768 c.lh := rfl
  obtain ⟨t, ht⟩ := heven
  have hrep : ∃ dsZ deZ : ℤ, c.ds = (dsZ : ℚ) ∧ c.de = (deZ : ℚ) ∧
      0 ≤ dsZ ∧ dsZ ≤ deZ ∧
      -(c.lh : ℚ) / 2 + ((768 : ℕ) : ℚ) / 2 ≤ (dsZ : ℚ) ∧
      (deZ : ℚ) ≤ (c.lh : ℚ) / 2 + ((768 : ℕ) : ℚ) / 2 := by
    have ht' : 0 < t := by omega
    rw [hds, hde]
    simp only [drawStartOf, drawEndOf, ht]
    have e1 : -(((t + t : ℤ)) : ℚ) / 2 + ((768 : ℕ) : ℚ) / 2 = ((384 - t : ℤ) : ℚ) := by
      push_cast; ring
    have e2 : (((t + t : ℤ)) : ℚ) / 2 + ((768 : ℕ) : ℚ) / 2 = ((t + 384 : ℤ) : ℚ) := by
      push_cast; ring
    rw [e1, e2]
    by_cases h1 : ((384 - t : ℤ) : ℚ) < 0
    · by_cases h2 : ((768 : ℕ) : ℚ) ≤ ((t + 384 : ℤ) : ℚ)
      · rw [if_pos h1, if_pos h2]
        refine ⟨0, 767, by norm_num, by push_cast; norm_num, le_refl 0, by omega, ?_, ?_⟩
        · push_cast at h1 ⊢
          linarith
        · push_cast at h2 ⊢
          linarith
      · rw [if_pos h1, if_neg h2]
        refine ⟨0, t + 384, by norm_num, rfl, le_refl 0, by omega, ?_, le_refl _⟩
        push_cast at h1 ⊢
        linarith
    · have h1' : (0 : ℤ) ≤ 384 - t := by exact_mod_cast not_lt.mp h1
      by_cases h2 : ((768 : ℕ) : ℚ) ≤ ((t + 384 : ℤ) : ℚ)
      · have h2' : (768 : ℤ) ≤ t + 384 := by exact_mod_cast h2
        rw [if_neg h1, if_pos h2]
        refine ⟨384 - t, 767, rfl, by push_cast; norm_num, h1', by omega, le_refl _, ?_⟩
        exact_mod_cast (by omega : (767 : ℤ) ≤ t + 384)
      · rw [if_neg h1, if_neg h2]
        exact ⟨384 - t, t + 384, rfl, rfl, h1', by omega, le_refl _, le_refl _⟩
  obtain ⟨dsZ, deZ, hdsQ, hdeQ, hds0, hdsde, hdslow, hdehigh⟩ := hrep
  rw [hpix]
  unfold pixelOfCtx
  refine ⟨?_, ?_, ?_, ?_⟩
  · -- ceiling rows
    intro hlt
    have hw : wallRowB c.ds c.de r = false := by
      unfold wallRowB
      rw [decide_eq_false (not_le.mpr hlt)]
      simp
    have hf : floorRowB c.de 768 r = false := by
      unfold floorRowB
      have : ¬ (c.de + 1 ≤ (r : ℚ)) := by
        rw [hdsQ] at hlt
        rw [hdeQ]
        have : (dsZ : ℚ) ≤ (deZ : ℚ) := by exact_mod_cast hdsde
        linarith
      rw [decide_eq_false this]
      simp
    rw [hw, hf]
    simp only [Bool.false_eq_true, if_false, decide_eq_true_eq]
    rw [if_pos hlt]
  · -- wall rows
    rintro ⟨hge, hlt⟩
    have hw : wallRowB c.ds c.de r = true := by
      unfold wallRowB
      rw [decide_eq_true hge, decide_eq_true hlt, hdsQ, den_one_nat_sub_int]
      simp
    rw [hw]
    simp only [if_true]
    have hb := texY_bounds c.tex.height c.lh (r : ℚ) hlh htex
      (le_trans hdslow (by rw [← hdsQ]; exact hge))
      (lt_of_lt_of_le (by rw [← hdeQ]; exact hlt) hdehigh)
    rw [if_pos hb]
    exact ⟨_, rfl⟩
  · -- floor rows
    intro hgt
    have hrZ : deZ < (r : ℤ) := by
      rw [hdeQ] at hgt
      exact_mod_cast hgt
    have hw : wallRowB c.ds c.de r = false := by
      unfold wallRowB
      have : ¬ ((r : ℚ) < c.de) := not_lt.mpr (le_of_lt hgt)
      rw [decide_eq_false this]
      simp
    have hf : floorRowB c.de 768 r = true := by
      unfold floorRowB
      have h1 : c.de + 1 ≤ (r : ℚ) := by
        rw [hdeQ]
        have : ((deZ + 1 : ℤ) : ℚ) ≤ ((r : ℤ) : ℚ) := by exact_mod_cast (by omega : deZ + 1 ≤ (r:ℤ))
        push_cast at this ⊢
        linarith
      have h2 : (c.de + 1) = ((deZ + 1 : ℤ) : ℚ) := by rw [hdeQ]; push_cast; ring
      rw [decide_eq_true h1, h2, den_one_nat_sub_int, decide_eq_true hr]
      simp
    rw [hw, hf]
    simp
  · -- the unwritten boundary row r = drawEnd
    intro heq
    have hw : wallRowB c.ds c.de r = false := by
      unfold wallRowB
      have : ¬ ((r : ℚ) < c.de) := by rw [← heq]; exact lt_irrefl _
      rw [decide_eq_false this]
      simp
    have hf : floorRowB c.de 768 r = false := by
      unfold floorRowB
      have : ¬ (c.de + 1 ≤ (r : ℚ)) := by rw [← heq]; linarith
      rw [decide_eq_false this]
      simp
    have hcl : ¬ ((r : ℚ) < c.ds) := by
      have hle : (dsZ : ℚ) ≤ (r : ℚ) := by
        rw [heq, hdeQ]
        exact_mod_cast hdsde
      rw [hdsQ]
      exact not_lt.mpr hle
    rw [hw, hf]
    simp only [Bool.false_eq_true, if_false, decide_eq_true_eq]
    rw [if_neg hcl]

/-- Pose for the C8 scenario: player at `(1.5, 3.0)` in `grid35` facing
`(0, -1)` with a degenerate camera plane, so every column hits cell `(1, 0)`
at perpendicular distance `2`, giving `lineHeight = 384` (even),
`drawStart = 192`, `drawEnd = 576`. -/
def pC8 : Pose := ⟨3/2, 3, 0, -1, 0, 0⟩

/-- **C8** counterexample: the pixel row at `drawEnd` (row 576 of column 0
in the concrete scenario) is written by neither the wall loop
(`y < drawEnd` is strict) nor the floor loop (starts at `drawEnd + 1`) nor
the ceiling loop — so the claim that every row of the 1024×768 buffer
receives a value in a render call is false. -/
theorem C8_boundary_row_unwritten :
    mainFrame grid35 texsW pC8 0 576 = none ∧ 576 < 768 :=
  ⟨of_decide_eq_true (by with_unfolding_all rfl), by norm_num⟩

set_option maxRecDepth 8000 in
/-- Witness for the amended C8 coverage theorem on the concrete scenario:
row 100 is ceiling, row 700 is floor, row 576 (= `drawEnd`) is unwritten. -/
theorem C8_row_coverage_witness :
    mainColumnPixel grid35 texsW pC8 0 100 = some (0x20, 0x10, 0x08) ∧
    mainColumnPixel grid35 texsW pC8 0 700 = some (0x40, 0x20, 0x10) ∧
    mainColumnPixel grid35 texsW pC8 0 576 = none :=
  ⟨(C8_row_coverage grid35 texsW pC8 0 ⟨1, 0, 1, 1, -1⟩
      (of_decide_eq_true (by with_unfolding_all rfl))
      (of_decide_eq_true (by with_unfolding_all rfl))
      (Int.even_iff.mpr (of_decide_eq_true (by with_unfolding_all rfl)))
      (of_decide_eq_true (by with_unfolding_all rfl))
      100 (by norm_num)).1
      (of_decide_eq_true (by with_unfolding_all rfl)),
   (C8_row_coverage grid35 texsW pC8 0 ⟨1, 0, 1, 1, -1⟩
      (of_decide_eq_true (by with_unfolding_all rfl))
      (of_decide_eq_true (by with_unfolding_all rfl))
      (Int.even_iff.mpr (of_decide_eq_true (by with_unfolding_all rfl)))
      (of_decide_eq_true (by with_unfolding_all rfl))
      700 (by norm_num)).2.2.1
      (of_decide_eq_true (by with_unfolding_all rfl)),
   (C8_row_coverage grid35 texsW pC8 0 ⟨1, 0, 1, 1, -1⟩
      (of_decide_eq_true (by with_unfolding_all rfl))
      (of_decide_eq_true (by with_unfolding_all rfl))
      (Int.even_iff.mpr (of_decide_eq_true (by with_unfolding_all rfl)))
      (of_decide_eq_true (by with_unfolding_all rfl))
      576 (by norm_num)).2.2.2
      (of_decide_eq_true (by with_unfolding_all rfl))⟩

/-! ## Map generation (`DoomEngine.generateLargeMap`) -/

/-- Write `map[y][x] = v` on the list-of-rows representation. -/
def set2 (m : List (List ℕ)) (y x v : ℕ) : List (List ℕ) :=
  m.set y ((m.getD y []).set x v)

/-- Cell read `map[y][x]`. -/
def get2 (m : List (List ℕ)) (y x : ℕ) : ℕ := (m.getD y []).getD x 0

/-- `[a, a+1, ..., b-1]`, the index range of a `for` loop. -/
def rangeList (a b : ℕ) : List ℕ := (List.range (b - a)).map (a + ·)

/-- One room-decoration double loop:
`if (Math.random() > th) map[y][x] = Math.floor(Math.random() * 4) + 1`,
threading the map and the random-stream cursor (one draw per cell for the
condition, a second draw only when it decorates). -/
def decorate (rng : ℕ → ℚ) (th : ℚ) (ys xs : List ℕ) :
    List (List ℕ) × ℕ → List (List ℕ) × ℕ :=
  fun st => ys.foldl (fun st y => xs.foldl (fun st x =>
    if rng st.2 > th then
      (set2 st.1 y x (⌊rng (st.2 + 1) * 4⌋ + 1).toNat, st.2 + 2)
    else (st.1, st.2 + 1)) st) st

/-- One random-pillar iteration: two draws pick a cell in `[2, 29]²`; if the
cell is currently `0` a third draw writes a wall code in `[1, 5]` there. -/
def pillarStep (rng : ℕ → ℚ) (st : List (List ℕ) × ℕ) : List (List ℕ) × ℕ :=
  let x := (⌊rng st.2 * 28⌋ + 2).toNat
  let y := (⌊rng (st.2 + 1) * 28⌋ + 2).toNat
  if get2 st.1 y x = 0 then
    (set2 st.1 y x (⌊rng (st.2 + 2) * 5⌋ + 1).toNat, st.2 + 3)
  else (st.1, st.2 + 2)

/-- The zero-filled 32×32 map with the outer border written to 1
(the first three loops of `generateLargeMap`). -/
def borderedMap : List (List ℕ) :=
  let m0 := List.replicate 32 (List.replicate 32 0)
  let m1 := (List.range 32).foldl (fun m x => set2 (set2 m 0 x 1) 31 x 1) m0
  (List.range 32).foldl (fun m y => set2 (set2 m y 0 1) y 31 1) m1

/-- `DoomEngine.generateLargeMap` with the `Math.random()` stream made
explicit: zero fill, outer border of 1s, four randomly decorated rooms
(thresholds 0.3/0.4/0.4/0.2), the corridor walls, four fixed pillars, then
ten random pillars — placed on any currently empty cell, with no carve-out
for the player start cell `(15, 15)`. -/
def generateLargeMap (rng : ℕ → ℚ) : List (List ℕ) :=
  let st3 := decorate rng (3/10) (rangeList 3 8) (rangeList 3 8) (borderedMap, 0)
  let st4 := decorate rng (4/10) (rangeList 3 8) (rangeList 20 28) st3
  let st5 := decorate rng (4/10) (rangeList 20 28) (rangeList 3 8) st4
  let st6 := decorate rng (2/10) (rangeList 20 28) (rangeList 20 28) st5
  let m7 := (rangeList 8 20).foldl (fun m x => set2 (set2 m 8 x 1) 20 x 1) st6.1
  let m8 := (rangeList 8 20).foldl (fun m y => set2 (set2 m y 8 1) y 20 1) m7
  let m9 := set2 (set2 (set2 (set2 m8 22 22 2) 22 25 3) 25 22 4) 25 25 5
  ((List.range 10).foldl (fun st _ => pillarStep rng st) (m9, st6.2)).1

/-- A failing random stream for C4: the first 169 draws (exactly the
25 + 40 + 40 + 64 room-decoration condition draws, all below every
threshold, so no second draw is consumed) return `0`; every later draw
returns `13/28`, making the first random pillar pick
`x = y = ⌊(13/28)⋅28⌋ + 2 = 15` — the player start cell — find it empty,
and write wall code `⌊(13/28)⋅5⌋ + 1 = 3` into it. -/
def rngBad : ℕ → ℚ := fun n => if n < 169 then 0 else 13/28

/-- Intermediate literal map for the C4 evaluation. -/
def mapL1 : List (List ℕ) :=
  [
     [1, 1, 1, 1, 1, 1, 1, 1, 1, 1, 1, 1, 1, 1, 1, 1, 1, 1, 1, 1, 1, 1, 1, 1, 1, 1, 1, 1, 1, 1, 1, 1],
     [1, 0, 0, 0, 0, 0, 0, 0, 0, 0, 0, 0, 0, 0, 0, 0, 0, 0, 0, 0, 0, 0, 0, 0, 0, 0, 0, 0, 0, 0, 0, 1],
     [1, 0, 0, 0, 0, 0, 0, 0, 0, 0, 0, 0, 0, 0, 0, 0, 0, 0, 0, 0, 0, 0, 0, 0, 0, 0, 0, 0, 0, 0, 0, 1],
     [1, 0, 0, 0, 0, 0, 0, 0, 0, 0, 0, 0, 0, 0, 0, 0, 0, 0, 0, 0, 0, 0, 0, 0, 0, 0, 0, 0, 0, 0, 0, 1],
     [1, 0, 0, 0, 0, 0, 0, 0, 0, 0, 0, 0, 0, 0, 0, 0, 0, 0, 0, 0, 0, 0, 0, 0, 0, 0, 0, 0, 0, 0, 0, 1],
     [1, 0, 0, 0, 0, 0, 0, 0, 0, 0, 0, 0, 0, 0, 0, 0, 0, 0, 0, 0, 0, 0, 0, 0, 0, 0, 0, 0, 0, 0, 0, 1],
     [1, 0, 0, 0, 0, 0, 0, 0, 0, 0, 0, 0, 0, 0, 0, 0, 0, 0, 0, 0, 0, 0, 0, 0, 0, 0, 0, 0, 0, 0, 0, 1],
     [1, 0, 0, 0, 0, 0, 0, 0, 0, 0, 0, 0, 0, 0, 0, 0, 0, 0, 0, 0, 0, 0, 0, 0, 0, 0, 0, 0, 0, 0, 0, 1],
     [1, 0, 0, 0, 0, 0, 0, 0, 0, 0, 0, 0, 0, 0, 0, 0, 0, 0, 0, 0, 0, 0, 0, 0, 0, 0, 0, 0, 0, 0, 0, 1],
     [1, 0, 0, 0, 0, 0, 0, 0, 0, 0, 0, 0, 0, 0, 0, 0, 0, 0, 0, 0, 0, 0, 0, 0, 0, 0, 0, 0, 0, 0, 0, 1],
     [1, 0, 0, 0, 0, 0, 0, 0, 0, 0, 0, 0, 0, 0, 0, 0, 0, 0, 0, 0, 0, 0, 0, 0, 0, 0, 0, 0, 0, 0, 0, 1],
     [1, 0, 0, 0, 0, 0, 0, 0, 0, 0, 0, 0, 0, 0, 0, 0, 0, 0, 0, 0, 0, 0, 0, 0, 0, 0, 0, 0, 0, 0, 0, 1],
     [1, 0, 0, 0, 0, 0, 0, 0, 0, 0, 0, 0, 0, 0, 0, 0, 0, 0, 0, 0, 0, 0, 0, 0, 0, 0, 0, 0, 0, 0, 0, 1],
     [1, 0, 0, 0, 0, 0, 0, 0, 0, 0, 0, 0, 0, 0, 0, 0, 0, 0, 0, 0, 0, 0, 0, 0, 0, 0, 0, 0, 0, 0, 0, 1],
     [1, 0, 0, 0, 0, 0, 0, 0, 0, 0, 0, 0, 0, 0, 0, 0, 0, 0, 0, 0, 0, 0, 0, 0, 0, 0, 0, 0, 0, 0, 0, 1],
     [1, 0, 0, 0, 0, 0, 0, 0, 0, 0, 0, 0, 0, 0, 0, 0, 0, 0, 0, 0, 0, 0, 0, 0, 0, 0, 0, 0, 0, 0, 0, 1],
     [1, 0, 0, 0, 0, 0, 0, 0, 0, 0, 0, 0, 0, 0, 0, 0, 0, 0, 0, 0, 0, 0, 0, 0, 0, 0, 0, 0, 0, 0, 0, 1],
     [1, 0, 0, 0, 0, 0, 0, 0, 0, 0, 0, 0, 0, 0, 0, 0, 0, 0, 0, 0, 0, 0, 0, 0, 0, 0, 0, 0, 0, 0, 0, 1],
     [1, 0, 0, 0, 0, 0, 0, 0, 0, 0, 0, 0, 0, 0, 0, 0, 0, 0, 0, 0, 0, 0, 0, 0, 0, 0, 0, 0, 0, 0, 0, 1],
     [1, 0, 0, 0, 0, 0, 0, 0, 0, 0, 0, 0, 0, 0, 0, 0, 0, 0, 0, 0, 0, 0, 0, 0, 0, 0, 0, 0, 0, 0, 0, 1],
     [1, 0, 0, 0, 0, 0, 0, 0, 0, 0, 0, 0, 0, 0, 0, 0, 0, 0, 0, 0, 0, 0, 0, 0, 0, 0, 0, 0, 0, 0, 0, 1],
     [1, 0, 0, 0, 0, 0, 0, 0, 0, 0, 0, 0, 0, 0, 0, 0, 0, 0, 0, 0, 0, 0, 0, 0, 0, 0, 0, 0, 0, 0, 0, 1],
     [1, 0, 0, 0, 0, 0, 0, 0, 0, 0, 0, 0, 0, 0, 0, 0, 0, 0, 0, 0, 0, 0, 0, 0, 0, 0, 0, 0, 0, 0, 0, 1],
     [1, 0, 0, 0, 0, 0, 0, 0, 0, 0, 0, 0, 0, 0, 0, 0, 0, 0, 0, 0, 0, 0, 0, 0, 0, 0, 0, 0, 0, 0, 0, 1],
     [1, 0, 0, 0, 0, 0, 0, 0, 0, 0, 0, 0, 0, 0, 0, 0, 0, 0, 0, 0, 0, 0, 0, 0, 0, 0, 0, 0, 0, 0, 0, 1],
     [1, 0, 0, 0, 0, 0, 0, 0, 0, 0, 0, 0, 0, 0, 0, 0, 0, 0, 0, 0, 0, 0, 0, 0, 0, 0, 0, 0, 0, 0, 0, 1],
     [1, 0, 0, 0, 0, 0, 0, 0, 0, 0, 0, 0, 0, 0, 0, 0, 0, 0, 0, 0, 0, 0, 0, 0, 0, 0, 0, 0, 0, 0, 0, 1],
     [1, 0, 0, 0, 0, 0, 0, 0, 0, 0, 0, 0, 0, 0, 0, 0, 0, 0, 0, 0, 0, 0, 0, 0, 0, 0, 0, 0, 0, 0, 0, 1],
     [1, 0, 0, 0, 0, 0, 0, 0, 0, 0, 0, 0, 0, 0, 0, 0, 0, 0, 0, 0, 0, 0, 0, 0, 0, 0, 0, 0, 0, 0, 0, 1],
     [1, 0, 0, 0, 0, 0, 0, 0, 0, 0, 0, 0, 0, 0, 0, 0, 0, 0, 0, 0, 0, 0, 0, 0, 0, 0, 0, 0, 0, 0, 0, 1],
     [1, 0, 0, 0, 0, 0, 0, 0, 0, 0, 0, 0, 0, 0, 0, 0, 0, 0, 0, 0, 0, 0, 0, 0, 0, 0, 0, 0, 0, 0, 0, 1],
     [1, 1, 1, 1, 1, 1, 1, 1, 1, 1, 1, 1, 1, 1, 1, 1, 1, 1, 1, 1, 1, 1, 1, 1, 1, 1, 1, 1, 1, 1, 1, 1]]

/-- Intermediate literal map for the C4 evaluation. -/
def mapL2 : List (List ℕ) :=
  [
     [1, 1, 1, 1, 1, 1, 1, 1, 1, 1, 1, 1, 1, 1, 1, 1, 1, 1, 1, 1, 1, 1, 1, 1, 1, 1, 1, 1, 1, 1, 1, 1],
     [1, 0, 0, 0, 0, 0, 0, 0, 0, 0, 0, 0, 0, 0, 0, 0, 0, 0, 0, 0, 0, 0, 0, 0, 0, 0, 0, 0, 0, 0, 0, 1],
     [1, 0, 0, 0, 0, 0, 0, 0, 0, 0, 0, 0, 0, 0, 0, 0, 0, 0, 0, 0, 0, 0, 0, 0, 0, 0, 0, 0, 0, 0, 0, 1],
     [1, 0, 0, 0, 0, 0, 0, 0, 0, 0, 0, 0, 0, 0, 0, 0, 0, 0, 0, 0, 0, 0, 0, 0, 0, 0, 0, 0, 0, 0, 0, 1],
     [1, 0, 0, 0, 0, 0, 0, 0, 0, 0, 0, 0, 0, 0, 0, 0, 0, 0, 0, 0, 0, 0, 0, 0, 0, 0, 0, 0, 0, 0, 0, 1],
     [1, 0, 0, 0, 0, 0, 0, 0, 0, 0, 0, 0, 0, 0, 0, 0, 0, 0, 0, 0, 0, 0, 0, 0, 0, 0, 0, 0, 0, 0, 0, 1],
     [1, 0, 0, 0, 0, 0, 0, 0, 0, 0, 0, 0, 0, 0, 0, 0, 0, 0, 0, 0, 0, 0, 0, 0, 0, 0, 0, 0, 0, 0, 0, 1],
     [1, 0, 0, 0, 0, 0, 0, 0, 0, 0, 0, 0, 0, 0, 0, 0, 0, 0, 0, 0, 0, 0, 0, 0, 0, 0, 0, 0, 0, 0, 0, 1],
     [1, 0, 0, 0, 0, 0, 0, 0, 1, 1, 1, 1, 1, 1, 1, 1, 1, 1, 1, 1, 0, 0, 0, 0, 0, 0, 0, 0, 0, 0, 0, 1],
     [1, 0, 0, 0, 0, 0, 0, 0, 0, 0, 0, 0, 0, 0, 0, 0, 0, 0, 0, 0, 0, 0, 0, 0, 0, 0, 0, 0, 0, 0, 0, 1],
     [1, 0, 0, 0, 0, 0, 0, 0, 0, 0, 0, 0, 0, 0, 0, 0, 0, 0, 0, 0, 0, 0, 0, 0, 0, 0, 0, 0, 0, 0, 0, 1],
     [1, 0, 0, 0, 0, 0, 0, 0, 0, 0, 0, 0, 0, 0, 0, 0, 0, 0, 0, 0, 0, 0, 0, 0, 0, 0, 0, 0, 0, 0, 0, 1],
     [1, 0, 0, 0, 0, 0, 0, 0, 0, 0, 0, 0, 0, 0, 0, 0, 0, 0, 0, 0, 0, 0, 0, 0, 0, 0, 0, 0, 0, 0, 0, 1],
     [1, 0, 0, 0, 0, 0, 0, 0, 0, 0, 0, 0, 0, 0, 0, 0, 0, 0, 0, 0, 0, 0, 0, 0, 0, 0, 0, 0, 0, 0, 0, 1],
     [1, 0, 0, 0, 0, 0, 0, 0, 0, 0, 0, 0, 0, 0, 0, 0, 0, 0, 0, 0, 0, 0, 0, 0, 0, 0, 0, 0, 0, 0, 0, 1],
     [1, 0, 0, 0, 0, 0, 0, 0, 0, 0, 0, 0, 0, 0, 0, 0, 0, 0, 0, 0, 0, 0, 0, 0, 0, 0, 0, 0, 0, 0, 0, 1],
     [1, 0, 0, 0, 0, 0, 0, 0, 0, 0, 0, 0, 0, 0, 0, 0, 0, 0, 0, 0, 0, 0, 0, 0, 0, 0, 0, 0, 0, 0, 0, 1],
     [1, 0, 0, 0, 0, 0, 0, 0, 0, 0, 0, 0, 0, 0, 0, 0, 0, 0, 0, 0, 0, 0, 0, 0, 0, 0, 0, 0, 0, 0, 0, 1],
     [1, 0, 0, 0, 0, 0, 0, 0, 0, 0, 0, 0, 0, 0, 0, 0, 0, 0, 0, 0, 0, 0, 0, 0, 0, 0, 0, 0, 0, 0, 0, 1],
     [1, 0, 0, 0, 0, 0, 0, 0, 0, 0, 0, 0, 0, 0, 0, 0, 0, 0, 0, 0, 0, 0, 0, 0, 0, 0, 0, 0, 0, 0, 0, 1],
     [1, 0, 0, 0, 0, 0, 0, 0, 1, 1, 1, 1, 1, 1, 1, 1, 1, 1, 1, 1, 0, 0, 0, 0, 0, 0, 0, 0, 0, 0, 0, 1],
     [1, 0, 0, 0, 0, 0, 0, 0, 0, 0, 0, 0, 0, 0, 0, 0, 0, 0, 0, 0, 0, 0, 0, 0, 0, 0, 0, 0, 0, 0, 0, 1],
     [1, 0, 0, 0, 0, 0, 0, 0, 0, 0, 0, 0, 0, 0, 0, 0, 0, 0, 0, 0, 0, 0, 0, 0, 0, 0, 0, 0, 0, 0, 0, 1],
     [1, 0, 0, 0, 0, 0, 0, 0, 0, 0, 0, 0, 0, 0, 0, 0, 0, 0, 0, 0, 0, 0, 0, 0, 0, 0, 0, 0, 0, 0, 0, 1],
     [1, 0, 0, 0, 0, 0, 0, 0, 0, 0, 0, 0, 0, 0, 0, 0, 0, 0, 0, 0, 0, 0, 0, 0, 0, 0, 0, 0, 0, 0, 0, 1],
     [1, 0, 0, 0, 0, 0, 0, 0, 0, 0, 0, 0, 0, 0, 0, 0, 0, 0, 0, 0, 0, 0, 0, 0, 0, 0, 0, 0, 0, 0, 0, 1],
     [1, 0, 0, 0, 0, 0, 0, 0, 0, 0, 0, 0, 0, 0, 0, 0, 0, 0, 0, 0, 0, 0, 0, 0, 0, 0, 0, 0, 0, 0, 0, 1],
     [1, 0, 0, 0, 0, 0, 0, 0, 0, 0, 0, 0, 0, 0, 0, 0, 0, 0, 0, 0, 0, 0, 0, 0, 0, 0, 0, 0, 0, 0, 0, 1],
     [1, 0, 0, 0, 0, 0, 0, 0, 0, 0, 0, 0, 0, 0, 0, 0, 0, 0, 0, 0, 0, 0, 0, 0, 0, 0, 0, 0, 0, 0, 0, 1],
     [1, 0, 0, 0, 0, 0, 0, 0, 0, 0, 0, 0, 0, 0, 0, 0, 0, 0, 0, 0, 0, 0, 0, 0, 0, 0, 0, 0, 0, 0, 0, 1],
     [1, 0, 0, 0, 0, 0, 0, 0, 0, 0, 0, 0, 0, 0, 0, 0, 0, 0, 0, 0, 0, 0, 0, 0, 0, 0, 0, 0, 0, 0, 0, 1],
     [1, 1, 1, 1, 1, 1, 1, 1, 1, 1, 1, 1, 1, 1, 1, 1, 1, 1, 1, 1, 1, 1, 1, 1, 1, 1, 1, 1, 1, 1, 1, 1]]

/-- Intermediate literal map for the C4 evaluation. -/
def mapL3 : List (List ℕ) :=
  [
     [1, 1, 1, 1, 1, 1, 1, 1, 1, 1, 1, 1, 1, 1, 1, 1, 1, 1, 1, 1, 1, 1, 1, 1, 1, 1, 1, 1, 1, 1, 1, 1],
     [1, 0, 0, 0, 0, 0, 0, 0, 0, 0, 0, 0, 0, 0, 0, 0, 0, 0, 0, 0, 0, 0, 0, 0, 0, 0, 0, 0, 0, 0, 0, 1],
     [1, 0, 0, 0, 0, 0, 0, 0, 0, 0, 0, 0, 0, 0, 0, 0, 0, 0, 0, 0, 0, 0, 0, 0, 0, 0, 0, 0, 0, 0, 0, 1],
     [1, 0, 0, 0, 0, 0, 0, 0, 0, 0, 0, 0, 0, 0, 0, 0, 0, 0, 0, 0, 0, 0, 0, 0, 0, 0, 0, 0, 0, 0, 0, 1],
     [1, 0, 0, 0, 0, 0, 0, 0, 0, 0, 0, 0, 0, 0, 0, 0, 0, 0, 0, 0, 0, 0, 0, 0, 0, 0, 0, 0, 0, 0, 0, 1],
     [1, 0, 0, 0, 0, 0, 0, 0, 0, 0, 0, 0, 0, 0, 0, 0, 0, 0, 0, 0, 0, 0, 0, 0, 0, 0, 0, 0, 0, 0, 0, 1],
     [1, 0, 0, 0, 0, 0, 0, 0, 0, 0, 0, 0, 0, 0, 0, 0, 0, 0, 0, 0, 0, 0, 0, 0, 0, 0, 0, 0, 0, 0, 0, 1],
     [1, 0, 0, 0, 0, 0, 0, 0, 0, 0, 0, 0, 0, 0, 0, 0, 0, 0, 0, 0, 0, 0, 0, 0, 0, 0, 0, 0, 0, 0, 0, 1],
     [1, 0, 0, 0, 0, 0, 0, 0, 1, 1, 1, 1, 1, 1, 1, 1, 1, 1, 1, 1, 1, 0, 0, 0, 0, 0, 0, 0, 0, 0, 0, 1],
     [1, 0, 0, 0, 0, 0, 0, 0, 1, 0, 0, 0, 0, 0, 0, 0, 0, 0, 0, 0, 1, 0, 0, 0, 0, 0, 0, 0, 0, 0, 0, 1],
     [1, 0, 0, 0, 0, 0, 0, 0, 1, 0, 0, 0, 0, 0, 0, 0, 0, 0, 0, 0, 1, 0, 0, 0, 0, 0, 0, 0, 0, 0, 0, 1],
     [1, 0, 0, 0, 0, 0, 0, 0, 1, 0, 0, 0, 0, 0, 0, 0, 0, 0, 0, 0, 1, 0, 0, 0, 0, 0, 0, 0, 0, 0, 0, 1],
     [1, 0, 0, 0, 0, 0, 0, 0, 1, 0, 0, 0, 0, 0, 0, 0, 0, 0, 0, 0, 1, 0, 0, 0, 0, 0, 0, 0, 0, 0, 0, 1],
     [1, 0, 0, 0, 0, 0, 0, 0, 1, 0, 0, 0, 0, 0, 0, 0, 0, 0, 0, 0, 1, 0, 0, 0, 0, 0, 0, 0, 0, 0, 0, 1],
     [1, 0, 0, 0, 0, 0, 0, 0, 1, 0, 0, 0, 0, 0, 0, 0, 0, 0, 0, 0, 1, 0, 0, 0, 0, 0, 0, 0, 0, 0, 0, 1],
     [1, 0, 0, 0, 0, 0, 0, 0, 1, 0, 0, 0, 0, 0, 0, 0, 0, 0, 0, 0, 1, 0, 0, 0, 0, 0, 0, 0, 0, 0, 0, 1],
     [1, 0, 0, 0, 0, 0, 0, 0, 1, 0, 0, 0, 0, 0, 0, 0, 0, 0, 0, 0, 1, 0, 0, 0, 0, 0, 0, 0, 0, 0, 0, 1],
     [1, 0, 0, 0, 0, 0, 0, 0, 1, 0, 0, 0, 0, 0, 0, 0, 0, 0, 0, 0, 1, 0, 0, 0, 0, 0, 0, 0, 0, 0, 0, 1],
     [1, 0, 0, 0, 0, 0, 0, 0, 1, 0, 0, 0, 0, 0, 0, 0, 0, 0, 0, 0, 1, 0, 0, 0, 0, 0, 0, 0, 0, 0, 0, 1],
     [1, 0, 0, 0, 0, 0, 0, 0, 1, 0, 0, 0, 0, 0, 0, 0, 0, 0, 0, 0, 1, 0, 0, 0, 0, 0, 0, 0, 0, 0, 0, 1],
     [1, 0, 0, 0, 0, 0, 0, 0, 1, 1, 1, 1, 1, 1, 1, 1, 1, 1, 1, 1, 0, 0, 0, 0, 0, 0, 0, 0, 0, 0, 0, 1],
     [1, 0, 0, 0, 0, 0, 0, 0, 0, 0, 0, 0, 0, 0, 0, 0, 0, 0, 0, 0, 0, 0, 0, 0, 0, 0, 0, 0, 0, 0, 0, 1],
     [1, 0, 0, 0, 0, 0, 0, 0, 0, 0, 0, 0, 0, 0, 0, 0, 0, 0, 0, 0, 0, 0, 0, 0, 0, 0, 0, 0, 0, 0, 0, 1],
     [1, 0, 0, 0, 0, 0, 0, 0, 0, 0, 0, 0, 0, 0, 0, 0, 0, 0, 0, 0, 0, 0, 0, 0, 0, 0, 0, 0, 0, 0, 0, 1],
     [1, 0, 0, 0, 0, 0, 0, 0, 0, 0, 0, 0, 0, 0, 0, 0, 0, 0, 0, 0, 0, 0, 0, 0, 0, 0, 0, 0, 0, 0, 0, 1],
     [1, 0, 0, 0, 0, 0, 0, 0, 0, 0, 0, 0, 0, 0, 0, 0, 0, 0, 0, 0, 0, 0, 0, 0, 0, 0, 0, 0, 0, 0, 0, 1],
     [1, 0, 0, 0, 0, 0, 0, 0, 0, 0, 0, 0, 0, 0, 0, 0, 0, 0, 0, 0, 0, 0, 0, 0, 0, 0, 0, 0, 0, 0, 0, 1],
     [1, 0, 0, 0, 0, 0, 0, 0, 0, 0, 0, 0, 0, 0, 0, 0, 0, 0, 0, 0, 0, 0, 0, 0, 0, 0, 0, 0, 0, 0, 0, 1],
     [1, 0, 0, 0, 0, 0, 0, 0, 0, 0, 0, 0, 0, 0, 0, 0, 0, 0, 0, 0, 0, 0, 0, 0, 0, 0, 0, 0, 0, 0, 0, 1],
     [1, 0, 0, 0, 0, 0, 0, 0, 0, 0, 0, 0, 0, 0, 0, 0, 0, 0, 0, 0, 0, 0, 0, 0, 0, 0, 0, 0, 0, 0, 0, 1],
     [1, 0, 0, 0, 0, 0, 0, 0, 0, 0, 0, 0, 0, 0, 0, 0, 0, 0, 0, 0, 0, 0, 0, 0, 0, 0, 0, 0, 0, 0, 0, 1],
     [1, 1, 1, 1, 1, 1, 1, 1, 1, 1, 1, 1, 1, 1, 1, 1, 1, 1, 1, 1, 1, 1, 1, 1, 1, 1, 1, 1, 1, 1, 1, 1]]

/-- Intermediate literal map for the C4 evaluation. -/
def mapL4 : List (List ℕ) :=
  [
     [1, 1, 1, 1, 1, 1, 1, 1, 1, 1, 1, 1, 1, 1, 1, 1, 1, 1, 1, 1, 1, 1, 1, 1, 1, 1, 1, 1, 1, 1, 1, 1],
     [1, 0, 0, 0, 0, 0, 0, 0, 0, 0, 0, 0, 0, 0, 0, 0, 0, 0, 0, 0, 0, 0, 0, 0, 0, 0, 0, 0, 0, 0, 0, 1],
     [1, 0, 0, 0, 0, 0, 0, 0, 0, 0, 0, 0, 0, 0, 0, 0, 0, 0, 0, 0, 0, 0, 0, 0, 0, 0, 0, 0, 0, 0, 0, 1],
     [1, 0, 0, 0, 0, 0, 0, 0, 0, 0, 0, 0, 0, 0, 0, 0, 0, 0, 0, 0, 0, 0, 0, 0, 0, 0, 0, 0, 0, 0, 0, 1],
     [1, 0, 0, 0, 0, 0, 0, 0, 0, 0, 0, 0, 0, 0, 0, 0, 0, 0, 0, 0, 0, 0, 0, 0, 0, 0, 0, 0, 0, 0, 0, 1],
     [1, 0, 0, 0, 0, 0, 0, 0, 0, 0, 0, 0, 0, 0, 0, 0, 0, 0, 0, 0, 0, 0, 0, 0, 0, 0, 0, 0, 0, 0, 0, 1],
     [1, 0, 0, 0, 0, 0, 0, 0, 0, 0, 0, 0, 0, 0, 0, 0, 0, 0, 0, 0, 0, 0, 0, 0, 0, 0, 0, 0, 0, 0, 0, 1],
     [1, 0, 0, 0, 0, 0, 0, 0, 0, 0, 0, 0, 0, 0, 0, 0, 0, 0, 0, 0, 0, 0, 0, 0, 0, 0, 0, 0, 0, 0, 0, 1],
     [1, 0, 0, 0, 0, 0, 0, 0, 1, 1, 1, 1, 1, 1, 1, 1, 1, 1, 1, 1, 1, 0, 0, 0, 0, 0, 0, 0, 0, 0, 0, 1],
     [1, 0, 0, 0, 0, 0, 0, 0, 1, 0, 0, 0, 0, 0, 0, 0, 0, 0, 0, 0, 1, 0, 0, 0, 0, 0, 0, 0, 0, 0, 0, 1],
     [1, 0, 0, 0, 0, 0, 0, 0, 1, 0, 0, 0, 0, 0, 0, 0, 0, 0, 0, 0, 1, 0, 0, 0, 0, 0, 0, 0, 0, 0, 0, 1],
     [1, 0, 0, 0, 0, 0, 0, 0, 1, 0, 0, 0, 0, 0, 0, 0, 0, 0, 0, 0, 1, 0, 0, 0, 0, 0, 0, 0, 0, 0, 0, 1],
     [1, 0, 0, 0, 0, 0, 0, 0, 1, 0, 0, 0, 0, 0, 0, 0, 0, 0, 0, 0, 1, 0, 0, 0, 0, 0, 0, 0, 0, 0, 0, 1],
     [1, 0, 0, 0, 0, 0, 0, 0, 1, 0, 0, 0, 0, 0, 0, 0, 0, 0, 0, 0, 1, 0, 0, 0, 0, 0, 0, 0, 0, 0, 0, 1],
     [1, 0, 0, 0, 0, 0, 0, 0, 1, 0, 0, 0, 0, 0, 0, 0, 0, 0, 0, 0, 1, 0, 0, 0, 0, 0, 0, 0, 0, 0, 0, 1],
     [1, 0, 0, 0, 0, 0, 0, 0, 1, 0, 0, 0, 0, 0, 0, 0, 0, 0, 0, 0, 1, 0, 0, 0, 0, 0, 0, 0, 0, 0, 0, 1],
     [1, 0, 0, 0, 0, 0, 0, 0, 1, 0, 0, 0, 0, 0, 0, 0, 0, 0, 0, 0, 1, 0, 0, 0, 0, 0, 0, 0, 0, 0, 0, 1],
     [1, 0, 0, 0, 0, 0, 0, 0, 1, 0, 0, 0, 0, 0, 0, 0, 0, 0, 0, 0, 1, 0, 0, 0, 0, 0, 0, 0, 0, 0, 0, 1],
     [1, 0, 0, 0, 0, 0, 0, 0, 1, 0, 0, 0, 0, 0, 0, 0, 0, 0, 0, 0, 1, 0, 0, 0, 0, 0, 0, 0, 0, 0, 0, 1],
     [1, 0, 0, 0, 0, 0, 0, 0, 1, 0, 0, 0, 0, 0, 0, 0, 0, 0, 0, 0, 1, 0, 0, 0, 0, 0, 0, 0, 0, 0, 0, 1],
     [1, 0, 0, 0, 0, 0, 0, 0, 1, 1, 1, 1, 1, 1, 1, 1, 1, 1, 1, 1, 0, 0, 0, 0, 0, 0, 0, 0, 0, 0, 0, 1],
     [1, 0, 0, 0, 0, 0, 0, 0, 0, 0, 0, 0, 0, 0, 0, 0, 0, 0, 0, 0, 0, 0, 0, 0, 0, 0, 0, 0, 0, 0, 0, 1],
     [1, 0, 0, 0, 0, 0, 0, 0, 0, 0, 0, 0, 0, 0, 0, 0, 0, 0, 0, 0, 0, 0, 2, 0, 0, 3, 0, 0, 0, 0, 0, 1],
     [1, 0, 0, 0, 0, 0, 0, 0, 0, 0, 0, 0, 0, 0, 0, 0, 0, 0, 0, 0, 0, 0, 0, 0, 0, 0, 0, 0, 0, 0, 0, 1],
     [1, 0, 0, 0, 0, 0, 0, 0, 0, 0, 0, 0, 0, 0, 0, 0, 0, 0, 0, 0, 0, 0, 0, 0, 0, 0, 0, 0, 0, 0, 0, 1],
     [1, 0, 0, 0, 0, 0, 0, 0, 0, 0, 0, 0, 0, 0, 0, 0, 0, 0, 0, 0, 0, 0, 4, 0, 0, 5, 0, 0, 0, 0, 0, 1],
     [1, 0, 0, 0, 0, 0, 0, 0, 0, 0, 0, 0, 0, 0, 0, 0, 0, 0, 0, 0, 0, 0, 0, 0, 0, 0, 0, 0, 0, 0, 0, 1],
     [1, 0, 0, 0, 0, 0, 0, 0, 0, 0, 0, 0, 0, 0, 0, 0, 0, 0, 0, 0, 0, 0, 0, 0, 0, 0, 0, 0, 0, 0, 0, 1],
     [1, 0, 0, 0, 0, 0, 0, 0, 0, 0, 0, 0, 0, 0, 0, 0, 0, 0, 0, 0, 0, 0, 0, 0, 0, 0, 0, 0, 0, 0, 0, 1],
     [1, 0, 0, 0, 0, 0, 0, 0, 0, 0, 0, 0, 0, 0, 0, 0, 0, 0, 0, 0, 0, 0, 0, 0, 0, 0, 0, 0, 0, 0, 0, 1],
     [1, 0, 0, 0, 0, 0, 0, 0, 0, 0, 0, 0, 0, 0, 0, 0, 0, 0, 0, 0, 0, 0, 0, 0, 0, 0, 0, 0, 0, 0, 0, 1],
     [1, 1, 1, 1, 1, 1, 1, 1, 1, 1, 1, 1, 1, 1, 1, 1, 1, 1, 1, 1, 1, 1, 1, 1, 1, 1, 1, 1, 1, 1, 1, 1]]

/-- Intermediate literal map for the C4 evaluation. -/
def mapL5 : List (List ℕ) :=
  [
     [1, 1, 1, 1, 1, 1, 1, 1, 1, 1, 1, 1, 1, 1, 1, 1, 1, 1, 1, 1, 1, 1, 1, 1, 1, 1, 1, 1, 1, 1, 1, 1],
     [1, 0, 0, 0, 0, 0, 0, 0, 0, 0, 0, 0, 0, 0, 0, 0, 0, 0, 0, 0, 0, 0, 0, 0, 0, 0, 0, 0, 0, 0, 0, 1],
     [1, 0, 0, 0, 0, 0, 0, 0, 0, 0, 0, 0, 0, 0, 0, 0, 0, 0, 0, 0, 0, 0, 0, 0, 0, 0, 0, 0, 0, 0, 0, 1],
     [1, 0, 0, 0, 0, 0, 0, 0, 0, 0, 0, 0, 0, 0, 0, 0, 0, 0, 0, 0, 0, 0, 0, 0, 0, 0, 0, 0, 0, 0, 0, 1],
     [1, 0, 0, 0, 0, 0, 0, 0, 0, 0, 0, 0, 0, 0, 0, 0, 0, 0, 0, 0, 0, 0, 0, 0, 0, 0, 0, 0, 0, 0, 0, 1],
     [1, 0, 0, 0, 0, 0, 0, 0, 0, 0, 0, 0, 0, 0, 0, 0, 0, 0, 0, 0, 0, 0, 0, 0, 0, 0, 0, 0, 0, 0, 0, 1],
     [1, 0, 0, 0, 0, 0, 0, 0, 0, 0, 0, 0, 0, 0, 0, 0, 0, 0, 0, 0, 0, 0, 0, 0, 0, 0, 0, 0, 0, 0, 0, 1],
     [1, 0, 0, 0, 0, 0, 0, 0, 0, 0, 0, 0, 0, 0, 0, 0, 0, 0, 0, 0, 0, 0, 0, 0, 0, 0, 0, 0, 0, 0, 0, 1],
     [1, 0, 0, 0, 0, 0, 0, 0, 1, 1, 1, 1, 1, 1, 1, 1, 1, 1, 1, 1, 1, 0, 0, 0, 0, 0, 0, 0, 0, 0, 0, 1],
     [1, 0, 0, 0, 0, 0, 0, 0, 1, 0, 0, 0, 0, 0, 0, 0, 0, 0, 0, 0, 1, 0, 0, 0, 0, 0, 0, 0, 0, 0, 0, 1],
     [1, 0, 0, 0, 0, 0, 0, 0, 1, 0, 0, 0, 0, 0, 0, 0, 0, 0, 0, 0, 1, 0, 0, 0, 0, 0, 0, 0, 0, 0, 0, 1],
     [1, 0, 0, 0, 0, 0, 0, 0, 1, 0, 0, 0, 0, 0, 0, 0, 0, 0, 0, 0, 1, 0, 0, 0, 0, 0, 0, 0, 0, 0, 0, 1],
     [1, 0, 0, 0, 0, 0, 0, 0, 1, 0, 0, 0, 0, 0, 0, 0, 0, 0, 0, 0, 1, 0, 0, 0, 0, 0, 0, 0, 0, 0, 0, 1],
     [1, 0, 0, 0, 0, 0, 0, 0, 1, 0, 0, 0, 0, 0, 0, 0, 0, 0, 0, 0, 1, 0, 0, 0, 0, 0, 0, 0, 0, 0, 0, 1],
     [1, 0, 0, 0, 0, 0, 0, 0, 1, 0, 0, 0, 0, 0, 0, 0, 0, 0, 0, 0, 1, 0, 0, 0, 0, 0, 0, 0, 0, 0, 0, 1],
     [1, 0, 0, 0, 0, 0, 0, 0, 1, 0, 0, 0, 0, 0, 0, 3, 0, 0, 0, 0, 1, 0, 0, 0, 0, 0, 0, 0, 0, 0, 0, 1],
     [1, 0, 0, 0, 0, 0, 0, 0, 1, 0, 0, 0, 0, 0, 0, 0, 0, 0, 0, 0, 1, 0, 0, 0, 0, 0, 0, 0, 0, 0, 0, 1],
     [1, 0, 0, 0, 0, 0, 0, 0, 1, 0, 0, 0, 0, 0, 0, 0, 0, 0, 0, 0, 1, 0, 0, 0, 0, 0, 0, 0, 0, 0, 0, 1],
     [1, 0, 0, 0, 0, 0, 0, 0, 1, 0, 0, 0, 0, 0, 0, 0, 0, 0, 0, 0, 1, 0, 0, 0, 0, 0, 0, 0, 0, 0, 0, 1],
     [1, 0, 0, 0, 0, 0, 0, 0, 1, 0, 0, 0, 0, 0, 0, 0, 0, 0, 0, 0, 1, 0, 0, 0, 0, 0, 0, 0, 0, 0, 0, 1],
     [1, 0, 0, 0, 0, 0, 0, 0, 1, 1, 1, 1, 1, 1, 1, 1, 1, 1, 1, 1, 0, 0, 0, 0, 0, 0, 0, 0, 0, 0, 0, 1],
     [1, 0, 0, 0, 0, 0, 0, 0, 0, 0, 0, 0, 0, 0, 0, 0, 0, 0, 0, 0, 0, 0, 0, 0, 0, 0, 0, 0, 0, 0, 0, 1],
     [1, 0, 0, 0, 0, 0, 0, 0, 0, 0, 0, 0, 0, 0, 0, 0, 0, 0, 0, 0, 0, 0, 2, 0, 0, 3, 0, 0, 0, 0, 0, 1],
     [1, 0, 0, 0, 0, 0, 0, 0, 0, 0, 0, 0, 0, 0, 0, 0, 0, 0, 0, 0, 0, 0, 0, 0, 0, 0, 0, 0, 0, 0, 0, 1],
     [1, 0, 0, 0, 0, 0, 0, 0, 0, 0, 0, 0, 0, 0, 0, 0, 0, 0, 0, 0, 0, 0, 0, 0, 0, 0, 0, 0, 0, 0, 0, 1],
     [1, 0, 0, 0, 0, 0, 0, 0, 0, 0, 0, 0, 0, 0, 0, 0, 0, 0, 0, 0, 0, 0, 4, 0, 0, 5, 0, 0, 0, 0, 0, 1],
     [1, 0, 0, 0, 0, 0, 0, 0, 0, 0, 0, 0, 0, 0, 0, 0, 0, 0, 0, 0, 0, 0, 0, 0, 0, 0, 0, 0, 0, 0, 0, 1],
     [1, 0, 0, 0, 0, 0, 0, 0, 0, 0, 0, 0, 0, 0, 0, 0, 0, 0, 0, 0, 0, 0, 0, 0, 0, 0, 0, 0, 0, 0, 0, 1],
     [1, 0, 0, 0, 0, 0, 0, 0, 0, 0, 0, 0, 0, 0, 0, 0, 0, 0, 0, 0, 0, 0, 0, 0, 0, 0, 0, 0, 0, 0, 0, 1],
     [1, 0, 0, 0, 0, 0, 0, 0, 0, 0, 0, 0, 0, 0, 0, 0, 0, 0, 0, 0, 0, 0, 0, 0, 0, 0, 0, 0, 0, 0, 0, 1],
     [1, 0, 0, 0, 0, 0, 0, 0, 0, 0, 0, 0, 0, 0, 0, 0, 0, 0, 0, 0, 0, 0, 0, 0, 0, 0, 0, 0, 0, 0, 0, 1],
     [1, 1, 1, 1, 1, 1, 1, 1, 1, 1, 1, 1, 1, 1, 1, 1, 1, 1, 1, 1, 1, 1, 1, 1, 1, 1, 1, 1, 1, 1, 1, 1]]

set_option maxRecDepth 8000 in
/-- **C4** evaluation at the failing input: the generated 32×32 map holds
wall code 3 — not 0 — at the player start cell `(15, 15)` (the cell
containing the start position `(15.5, 15.5)`). -/
theorem C4_start_cell_overwritten : get2 (generateLargeMap rngBad) 15 15 = 3 := by
  have hd1 : decorate rngBad (3/10) (rangeList 3 8) (rangeList 3 8) (borderedMap, 0) =
      (borderedMap, 25) := by with_unfolding_all rfl
  have hd2 : decorate rngBad (4/10) (rangeList 3 8) (rangeList 20 28) (borderedMap, 25) =
      (borderedMap, 65) := by with_unfolding_all rfl
  have hd3 : decorate rngBad (4/10) (rangeList 20 28) (rangeList 3 8) (borderedMap, 65) =
      (borderedMap, 105) := by with_unfolding_all rfl
  have hd4 : decorate rngBad (2/10) (rangeList 20 28) (rangeList 20 28) (borderedMap, 105) =
      (borderedMap, 169) := by with_unfolding_all rfl
  have hB : borderedMap = mapL1 := by with_unfolding_all rfl
  have h7 : (rangeList 8 20).foldl (fun m x => set2 (set2 m 8 x 1) 20 x 1) mapL1 = mapL2 := by
    with_unfolding_all rfl
  have h8 : (rangeList 8 20).foldl (fun m y => set2 (set2 m y 8 1) y 20 1) mapL2 = mapL3 := by
    with_unfolding_all rfl
  have h9 : set2 (set2 (set2 (set2 mapL3 22 22 2) 22 25 3) 25 22 4) 25 25 5 = mapL4 := by
    with_unfolding_all rfl
  have hps : (List.range 10).foldl (fun st _ => pillarStep rngBad st) (mapL4, 169) =
      (mapL5, 190) := by
    with_unfolding_all rfl
  simp only [generateLargeMap]
  rw [hd1, hd2, hd3, hd4]
  dsimp only
  rw [hB, h7, h8, h9, hps]
  rfl

/-! ## Pellet removal (`GameMap.removePellet`, `src/unnamed/part_002`) -/

/-- `this.mapData.pellets.findIndex(p => p.x === cellX && p.y === cellY)`,
with JavaScript's `-1` modelled as `none`.  Pellet positions are pairs of
numbers; the comparison is against the integer cell coordinates. -/
def findPelletIdx (cx cy : ℤ) : List (ℚ × ℚ) → Option ℕ
  | [] => none
  | p :: rest =>
    if p.1 = (cx : ℚ) ∧ p.2 = (cy : ℚ) then some 0
    else (findPelletIdx cx cy rest).map (· + 1)

/-- `GameMap.removePellet(x, y)`: computes the cell
`(Math.floor(x / cellSize), Math.floor(y / cellSize))`, finds the first
pellet at that cell and `splice`s it out (`pellets.splice(index, 1)`),
returning whether a pellet was removed, together with the resulting pellet
list. -/
def removePellet (cellSize x y : ℚ) (pellets : List (ℚ × ℚ)) :
    Bool × List (ℚ × ℚ) :=
  let cellX := ⌊x / cellSize⌋
  let cellY := ⌊y / cellSize⌋
  match findPelletIdx cellX cellY pellets with
  | some i => (true, pellets.eraseIdx i)
  | none => (false, pellets)

lemma eraseIdx_at_split {α : Type} (l₁ l₂ : List α) (p : α) :
    (l₁ ++ p :: l₂).eraseIdx l₁.length = l₁ ++ l₂ := by
  induction l₁ with
  | nil => rfl
  | cons a l₁ ih =>
    simp only [List.cons_append, List.length_cons, List.eraseIdx_cons_succ, ih]

lemma findPelletIdx_spec (cx cy : ℤ) (l : List (ℚ × ℚ)) :
    (findPelletIdx cx cy l = none →
      ∀ p ∈ l, ¬(p.1 = (cx : ℚ) ∧ p.2 = (cy : ℚ))) ∧
    (∀ i, findPelletIdx cx cy l = some i →
      ∃ l₁ p l₂, l = l₁ ++ p :: l₂ ∧ l₁.length = i ∧
        (p.1 = (cx : ℚ) ∧ p.2 = (cy : ℚ)) ∧
        (∀ q ∈ l₁, ¬(q.1 = (cx : ℚ) ∧ q.2 = (cy : ℚ)))) := by
  induction l with
  | nil =>
    refine ⟨fun _ p hp => absurd hp (List.not_mem_nil p), fun i hi => ?_⟩
    simp [findPelletIdx] at hi
  | cons a rest ih =>
    by_cases ha : a.1 = (cx : ℚ) ∧ a.2 = (cy : ℚ)
    · constructor
      · intro hn
        rw [findPelletIdx, if_pos ha] at hn
        exact absurd hn (by simp)
      · intro i hi
        rw [findPelletIdx, if_pos ha] at hi
        refine ⟨[], a, rest, by simp, ?_, ha, by simp⟩
        simpa using Option.some_inj.mp hi
    · constructor
      · intro hn p hp
        rw [findPelletIdx, if_neg ha] at hn
        rcases List.mem_cons.mp hp with h | h
        · rw [h]; exact ha
        · exact ih.1 (by simpa using hn) p h
      · intro i hi
        rw [findPelletIdx, if_neg ha] at hi
        obtain ⟨j, hj, hji⟩ := Option.map_eq_some'.mp hi
        obtain ⟨l₁, p, l₂, hsplit, hlen, hmatch, hnone⟩ := ih.2 j hj
        refine ⟨a :: l₁, p, l₂, by rw [hsplit]; rfl, by simp [hlen, hji], hmatch, ?_⟩
        intro q hq
        rcases List.mem_cons.mp hq with h | h
        · rw [h]; exact ha
        · exact hnone q h

/-- **C10**: `removePellet(x, y)` returns `true` iff the pellet list holds a
pellet at cell `(⌊x / cellSize⌋, ⌊y / cellSize⌋)`; when it returns `true` it
removes exactly the first such pellet, leaving every pellet before it and
after it in place, and when it returns `false` the pellet list is completely
unchanged. -/
theorem C10_removePellet_spec (cellSize x y : ℚ) (l : List (ℚ × ℚ)) :
    ((removePellet cellSize x y l).1 = true ↔
      ∃ p ∈ l, p.1 = ((⌊x / cellSize⌋ : ℤ) : ℚ) ∧ p.2 = ((⌊y / cellSize⌋ : ℤ) : ℚ)) ∧
    ((removePellet cellSize x y l).1 = true →
      ∃ l₁ p l₂, l = l₁ ++ p :: l₂ ∧
        (p.1 = ((⌊x / cellSize⌋ : ℤ) : ℚ) ∧ p.2 = ((⌊y / cellSize⌋ : ℤ) : ℚ)) ∧
        (∀ q ∈ l₁, ¬(q.1 = ((⌊x / cellSize⌋ : ℤ) : ℚ) ∧ q.2 = ((⌊y / cellSize⌋ : ℤ) : ℚ))) ∧
        (removePellet cellSize x y l).2 = l₁ ++ l₂) ∧
    ((removePellet cellSize x y l).1 = false → (removePellet cellSize x y l).2 = l) := by
  have hspec := findPelletIdx_spec ⌊x / cellSize⌋ ⌊y / cellSize⌋ l
  cases hfind : findPelletIdx ⌊x / cellSize⌋ ⌊y / cellSize⌋ l with
  | none =>
    have hrp : removePellet cellSize x y l = (false, l) := by
      unfold removePellet
      dsimp only
      rw [hfind]
    rw [hrp]
    refine ⟨⟨fun hf => absurd hf (by simp), fun hex => ?_⟩,
      fun hf => absurd hf (by simp), fun _ => rfl⟩
    obtain ⟨p, hp, hmatch⟩ := hex
    exact absurd hmatch (hspec.1 hfind p hp)
  | some i =>
    obtain ⟨l₁, p, l₂, hsplit, hlen, hmatch, hnone⟩ := hspec.2 i hfind
    have hrp : removePellet cellSize x y l = (true, l.eraseIdx i) := by
      unfold removePellet
      dsimp only
      rw [hfind]
    rw [hrp]
    refine ⟨⟨fun _ => ⟨p, by rw [hsplit]; simp, hmatch⟩, fun _ => rfl⟩, fun _ => ?_,
      fun hf => absurd hf (by simp)⟩
    refine ⟨l₁, p, l₂, hsplit, hmatch, hnone, ?_⟩
    show l.eraseIdx i = l₁ ++ l₂
    rw [hsplit, ← hlen]
    exact eraseIdx_at_split l₁ l₂ p

/-- Witness for C10: removing a pellet at `(45, 30)` (cell `(2, 1)`) from a
list with two pellets in that cell removes exactly the first one. -/
theorem C10_removePellet_spec_witness :
    ∃ l₁ p l₂, ([((1 : ℚ), (1 : ℚ)), (2, 1), (2, 1), (5, 5)] : List (ℚ × ℚ)) =
        l₁ ++ p :: l₂ ∧
      (p.1 = ((⌊(45 : ℚ) / 20⌋ : ℤ) : ℚ) ∧ p.2 = ((⌊(30 : ℚ) / 20⌋ : ℤ) : ℚ)) ∧
      (∀ q ∈ l₁, ¬(q.1 = ((⌊(45 : ℚ) / 20⌋ : ℤ) : ℚ) ∧ q.2 = ((⌊(30 : ℚ) / 20⌋ : ℤ) : ℚ))) ∧
      (removePellet 20 45 30 [((1 : ℚ), (1 : ℚ)), (2, 1), (2, 1), (5, 5)]).2 = l₁ ++ l₂ :=
  (C10_removePellet_spec 20 45 30 [((1 : ℚ), (1 : ℚ)), (2, 1), (2, 1), (5, 5)]).2.1
    (of_decide_eq_true (by with_unfolding_all rfl))

end Lunarc
